import Mathlib

/-!
# OpenVPN-GUI: localization layer and PLAP UI glue

A shallow embedding of `localization.c` (resource lookup with language
fallback, string loading) and `plap/ui_glue.c` (initialisation, connection
enumeration, status text, connect / disconnect / detach sequencing).

Conventions of the embedding.

* Handles and pointers returned by the operating system (`HINSTANCE`, `HWND`,
  `HANDLE`, `HRSRC`) are natural numbers, `0` being `NULL`.
* Wide characters are natural numbers; a C string is represented by the list
  of its characters up to, not including, the terminating NUL.
* Memory reached through a pointer is a total function from cell index to
  content, so pointer arithmetic is index arithmetic.
* Operating-system calls and functions of the program that live in other
  files are fields of an environment record; the embedded functions are
  parametric in it.
* Effects that are observable only as calls (logging, sleeping, showing a
  window, stopping a daemon) are recorded, in order, in a trace.
* The debug macro `dmsg` expands to nothing outside debug builds and is not
  embedded.
-/

namespace OpenVPNGui

/-! ## Windows scalar types and language identifiers -/

abbrev WCHAR := Nat
abbrev LANGID := Nat
abbrev HINSTANCE := Nat
abbrev HRSRC := Nat
abbrev HWND := Nat
abbrev HANDLE := Nat
abbrev DWORD := Nat
abbrev UINT := Nat

/-- Memory seen through a `WCHAR *`. -/
abbrev WMem := Nat → WCHAR

/-- The argument list handed through to the formatter. -/
abbrev va_list := List Nat

/-- The Windows header value of `LANG_ENGLISH`. -/
def LANG_ENGLISH : Nat := 0x09

/-- The Windows header value of `SUBLANG_DEFAULT`. -/
def SUBLANG_DEFAULT : Nat := 0x01

/-- The Windows header `MAKELANGID(p, s)`, which is `(s << 10) | p` as a `WORD`. -/
def MAKELANGID (p s : Nat) : LANGID := ((s <<< 10) ||| p) % 65536

/-- The Windows header `PRIMARYLANGID(l)`, which is `l & 0x3ff`. -/
def PRIMARYLANGID (l : LANGID) : Nat := l &&& 0x3ff

/-- `static const LANGID fallbackLangId = MAKELANGID(LANG_ENGLISH, SUBLANG_DEFAULT);` -/
def fallbackLangId : LANGID := MAKELANGID LANG_ENGLISH SUBLANG_DEFAULT

/-- A resource type or resource name: `MAKEINTRESOURCE(n)` or a string. -/
inductive ResName where
  | int (n : Nat)
  | str (s : String)
  deriving DecidableEq, Repr

/-- The Windows header `MAKEINTRESOURCE(i)`: the argument is cast to `WORD`. -/
def MAKEINTRESOURCE (i : Nat) : ResName := ResName.int (i % 65536)

/-- The Windows header value `RT_STRING = MAKEINTRESOURCE(6)`. -/
def RT_STRING : ResName := MAKEINTRESOURCE 6

/-! ## localization.c -/

/-- The resource and formatting services `localization.c` calls. -/
structure ResEnv where
  /-- `FindResourceEx(hModule, type, name, language)`; `0` when there is none. -/
  FindResourceEx : HINSTANCE → ResName → ResName → LANGID → HRSRC
  /-- `FindResource(hModule, name, type)`; `0` when there is none. -/
  FindResource : HINSTANCE → ResName → ResName → HRSRC
  /-- `LoadResource(hModule, res)`: the memory of the resource, `none` for `NULL`. -/
  LoadResource : HINSTANCE → HRSRC → Option WMem
  /-- Whether `malloc` of the given number of bytes succeeds. -/
  malloc : Nat → Bool
  /-- The full text `_vsntprintf` produces for a format string and arguments. -/
  vformat : List WCHAR → va_list → List WCHAR
  /-- The numeric registry value `ui_language` under the GUI key of HKCU,
  `none` when the key cannot be opened; a value that cannot be read is `0`. -/
  reg_ui_language : Option Nat
  /-- `GetUserDefaultUILanguage()`. -/
  GetUserDefaultUILanguage : LANGID

/-- `FindResourceLang(resType, resId, langId)`, with `hInstance` for `o.hInstance`. -/
def FindResourceLang (env : ResEnv) (hInstance : HINSTANCE)
    (resType resId : ResName) (langId : LANGID) : HRSRC :=
  -- try to find the resource in requested language
  let res := env.FindResourceEx hInstance resType resId langId
  if res ≠ 0 then res
  else
    -- try to find the resource in the default sublanguage
    let defLangId := MAKELANGID (PRIMARYLANGID langId) SUBLANG_DEFAULT
    let res := env.FindResourceEx hInstance resType resId defLangId
    if res ≠ 0 then res
    else
      -- try to find the resource in the default language
      let res := env.FindResourceEx hInstance resType resId fallbackLangId
      if res ≠ 0 then res
      else
        -- try to find the resource in any language
        env.FindResource hInstance resId resType

/-- `GetGUILanguage()`: takes the static `gui_language` and returns the
language together with the new value of the static. The value read from the
registry is a `DWORD` and is cut to the 16 bits of a `LANGID` by the
assignment; `InitMUILanguage` does not touch what is modelled here. -/
def GetGUILanguage (env : ResEnv) (gui_language : LANGID) : LANGID × LANGID :=
  if gui_language ≠ 0 then (gui_language, gui_language)
  else
    let value : Nat := match env.reg_ui_language with
      | some v => v
      | none => 0
    let g : LANGID := (if value ≠ 0 then value else env.GetUserDefaultUILanguage) % 65536
    (g, g)

/-- Writes the cells of `src` to `dst`, starting at cell `0`. -/
def memWrite (dst : WMem) (src : List WCHAR) : WMem :=
  fun i => if h : i < src.length then src.get ⟨i, h⟩ else dst i

/-- Stores `v` in cell `k`. -/
def memSet (m : WMem) (k : Nat) (v : WCHAR) : WMem :=
  fun i => if i = k then v else m i

/-- The cells `m[start], .., m[start + n - 1]`. -/
def memRead (m : WMem) (start n : Nat) : List WCHAR :=
  (List.range n).map (fun i => m (start + i))

/-- The index of the first NUL among the first `n` cells, `n` when there is none. -/
def firstZero (m : WMem) : Nat → Nat
  | 0 => 0
  | n + 1 => if firstZero m n < n then firstZero m n else if m n = 0 then n else n + 1

/-- `wcsncpy(dest, src, n)` into a destination whose cell `n` already holds NUL,
read back as a C string: the characters of `src` up to its first NUL,
at most `n` of them. -/
def wcsncpy_str (src : WMem) (start n : Nat) : List WCHAR :=
  (memRead src start n).takeWhile (fun ch => ch != 0)

/-- `_vsntprintf(buffer, count, ..)` for the text `out`: the text and a NUL
when they fit in `count` cells, the first `count` characters otherwise. -/
def vsntprintf (buffer : WMem) (count : Nat) (out : List WCHAR) : WMem :=
  if out.length < count then memWrite buffer (out ++ [0])
  else memWrite buffer (out.take count)

/-- What the search loop of `LoadStringLang` ends with. -/
inductive Scan where
  /-- The loop was left by `break`, or ran to its end. -/
  | notFound
  /-- The string was copied out; the function returns from inside the loop. -/
  | found (formatStr : List WCHAR)
  deriving DecidableEq, Repr

/-- The loop `for (int i = 0; i < 16; i++)` of `LoadStringLang`; `n` counts
the iterations that remain, `entry` is the offset of the entry pointer. -/
def scanBlock (env : ResEnv) (mem : WMem) (resIndex : Nat) : Nat → Nat → Nat → Scan
  | 0, _, _ => Scan.notFound
  | n + 1, i, entry =>
    -- skip over this entry
    if i ≠ resIndex then scanBlock env mem resIndex n (i + 1) (entry + (mem entry + 1))
    -- string does not exist
    else if mem entry = 0 then Scan.notFound
    -- string found, copy it
    else if env.malloc ((mem entry + 1) * 2) = false then Scan.notFound
    else Scan.found (wcsncpy_str mem (entry + 1) (mem entry))

/-- What a call of `LoadStringLang` leaves behind. -/
structure LoadOutcome where
  /-- The returned length and the buffer afterwards; `none` when the call
  stores outside the buffer (`bufferSize = 0` with a string found). -/
  result : Option (Nat × WMem)
  /-- Ghost field: the number of recursive calls made. -/
  calls : Nat

/-- The part of `LoadStringLang` before the label `err`: `none` stands for
reaching `err`, `some` for returning from inside the loop. -/
def LoadStringLang_try (env : ResEnv) (hInstance : HINSTANCE) (stringId : UINT)
    (langId : LANGID) (buffer : WMem) (bufferSize : Nat) (args : va_list) :
    Option (Option (Nat × WMem)) :=
  let resBlockId := MAKEINTRESOURCE (stringId / 16 + 1)
  let resIndex := stringId % 16
  -- find resource block for string
  let res := FindResourceLang env hInstance RT_STRING resBlockId langId
  if res = 0 then none
  else
    -- get pointer to first entry in resource block
    match env.LoadResource hInstance res with
    | none => none
    | some mem =>
      -- search for string in block
      match scanBlock env mem resIndex 16 0 0 with
      | Scan.notFound => none
      | Scan.found formatStr =>
        if bufferSize = 0 then some none
        else
          let b := vsntprintf buffer bufferSize (env.vformat formatStr args)
          let b := memSet b (bufferSize - 1) 0
          some (some (firstZero b bufferSize, b))

/-- `LoadStringLang(stringId, langId, buffer, bufferSize, args)`. -/
def LoadStringLang (env : ResEnv) (hInstance : HINSTANCE) (stringId : UINT)
    (langId : LANGID) (buffer : WMem) (bufferSize : Nat) (args : va_list) : LoadOutcome :=
  match LoadStringLang_try env hInstance stringId langId buffer bufferSize args with
  | some r => { result := r, calls := 0 }
  | none =>
    -- not found, try again with the default language
    if h : langId ≠ fallbackLangId then
      let r := LoadStringLang env hInstance stringId fallbackLangId buffer bufferSize args
      { result := r.result, calls := r.calls + 1 }
    else
      { result := some (0, buffer), calls := 0 }
termination_by (if langId = fallbackLangId then 0 else 1)
decreasing_by simp [h]

/-- `LoadLocalizedStringBuf(buffer, bufferSize, stringId, ...)`; the static
`gui_language` is passed in and its new value returned with the outcome. -/
def LoadLocalizedStringBuf (env : ResEnv) (hInstance : HINSTANCE) (gui_language : LANGID)
    (buffer : WMem) (bufferSize : Nat) (stringId : UINT) (args : va_list) :
    LoadOutcome × LANGID :=
  let g := GetGUILanguage env gui_language
  (LoadStringLang env hInstance stringId g.1 buffer bufferSize args, g.2)

/-- The offset of entry `k` in a string block: every entry is one length cell
followed by that many characters. -/
def entryOffset (mem : WMem) : Nat → Nat
  | 0 => 0
  | k + 1 => entryOffset mem k + (mem (entryOffset mem k) + 1)

/-- The lookup of string `stringId` in language `langId` fails: there is no
resource block, or the block cannot be loaded, or the entry of the string in
the block has length `0`. -/
def lookupFails (env : ResEnv) (hInstance : HINSTANCE) (stringId : UINT)
    (langId : LANGID) : Prop :=
  FindResourceLang env hInstance RT_STRING (MAKEINTRESOURCE (stringId / 16 + 1)) langId = 0
  ∨ env.LoadResource hInstance
      (FindResourceLang env hInstance RT_STRING (MAKEINTRESOURCE (stringId / 16 + 1)) langId)
      = none
  ∨ ∃ mem, env.LoadResource hInstance
      (FindResourceLang env hInstance RT_STRING (MAKEINTRESOURCE (stringId / 16 + 1)) langId)
      = some mem ∧ mem (entryOffset mem (stringId % 16)) = 0

/-! ## plap/ui_glue.c: data model -/

/-- The enumerators of `conn_state_t` that the two files name; `other` stands
for the remaining enumerators of `options.h`. -/
inductive conn_state_t where
  | disconnected
  | onhold
  | connected
  | detached
  | other (n : Nat)
  deriving DecidableEq, Repr

/-- The enumerator of `proxy_source_t` that `ui_glue.c` names, and the others. -/
inductive proxy_source_t where
  | windows
  | other (n : Nat)
  deriving DecidableEq, Repr

/-- The enumerator of `service_state_t` that `ui_glue.c` names, and the others. -/
inductive service_state_t where
  | service_connected
  | other (n : Nat)
  deriving DecidableEq, Repr

/-- The field of `c->manage` that `ui_glue.c` reads. -/
structure mgmt_t where
  connected : Int
  deriving DecidableEq, Repr

/-- The fields of `connection_t` that `ui_glue.c` reads or writes. -/
structure connection_t where
  config_name : List WCHAR
  state : conn_state_t
  flags : Nat
  hwndStatus : HWND
  threadId : DWORD
  /-- The C string in `char daemon_state[]`. -/
  daemon_state : List Nat
  manage : mgmt_t
  deriving DecidableEq, Repr

/-- The fields of `options_t` that `ui_glue.c` reads or writes. A pointer
`&o.conn[i]` is represented by the index `i`. -/
structure options_t where
  hInstance : HINSTANCE
  hWnd : HWND
  session_semaphore : HANDLE
  silent_connection : Nat
  disable_save_passwords : Nat
  disable_popup_messages : Nat
  enable_persistent : Nat
  proxy_source : proxy_source_t
  service_state : service_state_t
  num_configs : Nat
  conn : Nat → connection_t

/-- The text handed to `MsgToEventLog`. -/
inductive LogMsg where
  /-- A literal format string with its numeric arguments. -/
  | fmt (format : String) (args : List Nat)
  /-- The text `LoadLocalizedString(stringId)`. -/
  | localized (stringId : UINT)
  deriving DecidableEq, Repr

/-- The calls whose only observable content is that they were made. -/
inductive Event where
  /-- `srand(seed)`; the seed is an `unsigned int`. -/
  | srand (seed : Nat)
  | MsgToEventLog (type : Nat) (msg : LogMsg)
  | LoadLibrary (name : String)
  | InitManagement
  | InitOptions
  | GetRegistryKeys
  | WSAStartup (version : Nat)
  | BuildFileList
  | dpiInitialize
  | ShowWindowAsync (hwnd : HWND) (nCmdShow : Nat)
  | StopOpenVPN (c : Nat)
  | DetachOpenVPN (c : Nat)
  | CountConnState (check : conn_state_t)
  | Sleep (ms : DWORD)
  | TerminateThread (h : HANDLE) (exitCode : DWORD)
  | CloseHandle (h : HANDLE)
  deriving DecidableEq, Repr

/-- The global `o`, the wall clock in milliseconds, and the calls made so far. -/
structure World where
  o : options_t
  ms : Nat
  trace : List Event

/-- Records a call. -/
def World.emit (w : World) (e : Event) : World :=
  { w with trace := w.trace ++ [e] }

/-- Replaces the connection `o.conn[c]`. -/
def World.setConn (w : World) (c : Nat) (v : connection_t) : World :=
  { w with o := { w.o with conn := fun i => if i = c then v else w.o.conn i } }

/-- `time(NULL)`: the clock in whole seconds. -/
def time (w : World) : Nat := w.ms / 1000

/-- The operating-system calls, the header constants and the functions of
other files that `ui_glue.c` uses. -/
structure UIEnv where
  /-- `FLAG_DAEMON_PERSISTENT` of `options.h`. -/
  FLAG_DAEMON_PERSISTENT : Nat
  /-- Control and string identifiers of `openvpn-gui-res.h`. -/
  ID_TXT_STATUS : Nat
  ID_DETACH : Nat
  ID_DISCONNECT : Nat
  IDS_ERR_LOAD_RICHED20 : UINT
  /-- `INVALID_HANDLE_VALUE`, which depends on the pointer width. -/
  INVALID_HANDLE_VALUE : HANDLE
  /-- The handle `InitSemaphore` returns for the session semaphore of the
  PLAP provider, `0` when it cannot be created. -/
  InitSemaphore : HANDLE
  WaitForSingleObject : HANDLE → DWORD → DWORD
  /-- `GetModuleHandle(name)`: `0` when the module is not loaded in the process. -/
  GetModuleHandle : String → HANDLE
  WSAStartup : Nat → DWORD
  GetDlgItem : HWND → Nat → HWND
  /-- The text of a dialog control, empty when there is no such control. -/
  dlgItemText : HWND → Nat → List WCHAR
  /-- `OpenThread(THREAD_ALL_ACCESS, FALSE, threadId)`. -/
  OpenThread : DWORD → HANDLE
  /-- `GetExitCodeThread(h, &exit_code)`: the exit code, `none` on failure. -/
  GetExitCodeThread : HANDLE → Option DWORD
  /-- What the clock and the other threads do to `o` while the caller is in
  `Sleep(ms)`: takes and returns `o` and the clock in milliseconds. -/
  elapse : DWORD → options_t × Nat → options_t × Nat
  InitOptions : options_t → options_t
  GetRegistryKeys : options_t → options_t
  BuildFileList : options_t → options_t
  /-- `dpi_initialize(&o)`. -/
  dpiInitialize : options_t → options_t
  StopOpenVPN : connection_t → connection_t
  DetachOpenVPN : connection_t → connection_t

/-- The Windows header value of `WAIT_OBJECT_0`. -/
def WAIT_OBJECT_0 : DWORD := 0

/-- The Windows header value of `STILL_ACTIVE`. -/
def STILL_ACTIVE : DWORD := 259

/-- The Windows header value of `EVENTLOG_ERROR_TYPE`. -/
def EVENTLOG_ERROR_TYPE : Nat := 1

/-- The Windows header value of `SW_HIDE`. -/
def SW_HIDE : Nat := 0

/-- The Windows header value of `SW_SHOW`. -/
def SW_SHOW : Nat := 5

/-- The Windows header `MAKEWORD(lo, hi)`. -/
def MAKEWORD (lo hi : Nat) : Nat := (lo % 256) ||| ((hi % 256) <<< 8)

/-- `Sleep(ms)`. -/
def Sleep (env : UIEnv) (ms : DWORD) (w : World) : World :=
  { o := (env.elapse ms (w.o, w.ms)).1
    ms := (env.elapse ms (w.o, w.ms)).2
    trace := w.trace ++ [Event.Sleep ms] }

/-! ## plap/ui_glue.c: functions -/

/-- The statements of `InitializeUI` from `InitOptions(&o)` to
`o.hInstance = hinstance`. -/
def InitializeUI.setOptions (env : UIEnv) (hinstance : HINSTANCE)
    (session_semaphore : HANDLE) (w : World) : World :=
  -- initialize options to default state
  let w := { w with o := env.InitOptions w.o }.emit Event.InitOptions
  let w := { w with o := { w.o with session_semaphore := session_semaphore } }
  let w := { w with o := env.GetRegistryKeys w.o }.emit Event.GetRegistryKeys
  -- Do not show status window by default
  { w with o := { w.o with
      silent_connection := 1
      disable_save_passwords := 1
      disable_popup_messages := 1
      enable_persistent := 1
      proxy_source := proxy_source_t.windows
      service_state := service_state_t.service_connected
      hInstance := hinstance } }

/-- `InitializeUI(hinstance)`: the returned value and the world afterwards. -/
def InitializeUI (env : UIEnv) (hinstance : HINSTANCE) (w : World) : DWORD × World :=
  -- a session local semaphore to detect second instance
  let session_semaphore := env.InitSemaphore
  let w := w.emit (Event.srand (time w % 4294967296))
  -- try to lock the semaphore, else we are not the first instance
  if session_semaphore ≠ 0
      ∧ env.WaitForSingleObject session_semaphore 200 ≠ WAIT_OBJECT_0 then
    if hinstance = w.o.hInstance then
      -- already initialized
      (0, w)
    else
      (1, w.emit (Event.MsgToEventLog EVENTLOG_ERROR_TYPE (LogMsg.fmt
        "InitializeUI called a second time with a different hinstance -- multiple instances of the UI not supported."
        [])))
  else if env.GetModuleHandle "RICHED20.DLL" ≠ 0 then
    (1, w.emit (Event.MsgToEventLog EVENTLOG_ERROR_TYPE
      (LogMsg.localized env.IDS_ERR_LOAD_RICHED20)))
  else
    let w := w.emit (Event.LoadLibrary "RICHED20.DLL")
    let w := w.emit Event.InitManagement
    let w := InitializeUI.setOptions env hinstance session_semaphore w
    let status := env.WSAStartup (MAKEWORD 2 2)
    let w := w.emit (Event.WSAStartup (MAKEWORD 2 2))
    if status ≠ 0 then
      (status, w.emit (Event.MsgToEventLog EVENTLOG_ERROR_TYPE
        (LogMsg.fmt "WSAStartup Failed with error = %lu" [status])))
    else
      let w := { w with o := env.BuildFileList w.o }.emit Event.BuildFileList
      let w := { w with o := env.dpiInitialize w.o }.emit Event.dpiInitialize
      (0, w)

/-- The loop of `FindPLAPConnections`; `n` counts the indices `i` that remain
below `o.num_configs`, and the array `conn` holds connection indices. -/
def FindPLAPConnections.loop (env : UIEnv) (o : options_t) (max_count : Nat) :
    Nat → Nat → Nat → (Nat → Nat) → Nat × (Nat → Nat)
  | 0, _, count, conn => (count, conn)
  | n + 1, i, count, conn =>
    if count < max_count then
      if (o.conn i).flags &&& env.FLAG_DAEMON_PERSISTENT = 0 then
        FindPLAPConnections.loop env o max_count n (i + 1) count conn
      else
        FindPLAPConnections.loop env o max_count n (i + 1) (count + 1)
          (fun k => if k = count then i else conn k)
    else (count, conn)

/-- `FindPLAPConnections(conn, max_count)`: the returned count and the array
`conn` afterwards. -/
def FindPLAPConnections (env : UIEnv) (o : options_t) (conn : Nat → Nat) (max_count : Nat) :
    Nat × (Nat → Nat) :=
  FindPLAPConnections.loop env o max_count o.num_configs 0 0 conn

/-- `GetDlgItemText(hwnd, id, buf, nMaxCount)`: the C string left in `buf`,
which is the text of the control cut to `nMaxCount - 1` characters. -/
def GetDlgItemText (env : UIEnv) (hwnd : HWND) (id nMaxCount : Nat) : List WCHAR :=
  (env.dlgItemText hwnd id).take (nMaxCount - 1)

/-- `wcsncpy_s(dest, len, src, _TRUNCATE)`: the cells written at the start of
`dest`; `none` when `len` is `0`, which the C runtime rejects as an invalid
parameter. -/
def wcsncpy_s_truncate (len : Nat) (src : List WCHAR) : Option (List WCHAR) :=
  if len = 0 then none else some (src.take (len - 1) ++ [0])

/-- Modelled from the spec: the macro `__sntprintf_0(buf, size, fmt, ...)` of
`main.h`, which is not among the files, is `_sntprintf` followed by a
guaranteed NUL termination: the text is cut to `size - 1` characters and a NUL
follows. The cells written at the start of `buf`; `none` when `size` is `0`,
where the terminator would be stored before the buffer. -/
def sntprintf_0 (size : Nat) (out : List WCHAR) : Option (List WCHAR) :=
  if size = 0 then none else some (out.take (size - 1) ++ [0])

/-- The characters of the C string "RECONNECTING". -/
def RECONNECTING : List Nat := "RECONNECTING".toList.map Char.toNat

/-- `GetConnectionStatusText(c, status, len)`: the cells written at the start
of `status`, the last write to a cell winning; `none` when a callee is handed
a buffer of length `0`. The format `%hs` widens each character of the narrow
string to the wide character of the same code. -/
def GetConnectionStatusText (env : UIEnv) (c : connection_t) (len : DWORD) :
    Option (List WCHAR) :=
  -- blank status as a default
  let status : List WCHAR := if len > 0 then [0] else []
  if c.hwndStatus ≠ 0 then
    let status_text := GetDlgItemText env c.hwndStatus env.ID_TXT_STATUS 256
    -- showing RECONNECTING while on hold is confusing, use status text
    if c.daemon_state = RECONNECTING ∧ c.state = conn_state_t.onhold ∧ status_text ≠ [] then
      wcsncpy_s_truncate len status_text
    -- this is more fine-grained and thus preferred
    else if c.daemon_state ≠ [] then
      sntprintf_0 len c.daemon_state
    else if status_text ≠ [] then
      wcsncpy_s_truncate len status_text
    else some status
  else some status

/-- The test of the `while` loop in `DisconnectHelper`. -/
def DisconnectHelper.waiting (c : Nat) (timeout : Nat) (w : World) : Bool :=
  decide (timeout > time w) && decide ((w.o.conn c).state ≠ conn_state_t.onhold)
    && decide ((w.o.conn c).state ≠ conn_state_t.disconnected)

/-- The `while` loop of `DisconnectHelper`, run for at most `fuel` tests of its
condition; the flag tells whether the loop was left. -/
def DisconnectHelper.wait (env : UIEnv) (c : Nat) (timeout : Nat) : Nat → World → World × Bool
  | 0, w => (w, false)
  | fuel + 1, w =>
    if DisconnectHelper.waiting c timeout w then
      DisconnectHelper.wait env c timeout fuel (Sleep env 100 w)
    else (w, true)

/-- The statements of `DisconnectHelper` from the first `ShowWindowAsync` to
`StopOpenVPN(c)`. -/
def DisconnectHelper.sendStop (env : UIEnv) (c : Nat) (w : World) : World :=
  let w := w.emit (Event.ShowWindowAsync
    (env.GetDlgItem (w.o.conn c).hwndStatus env.ID_DISCONNECT) SW_SHOW)
  (w.setConn c (env.StopOpenVPN (w.o.conn c))).emit (Event.StopOpenVPN c)

/-- `DisconnectHelper(c)` for `c = &o.conn[c]`, its wait loop run for at most
`fuel` tests; the flag tells whether the function returned. -/
def DisconnectHelper (env : UIEnv) (fuel : Nat) (c : Nat) (w : World) : World × Bool :=
  if (w.o.conn c).state = conn_state_t.disconnected
      ∨ (w.o.conn c).state = conn_state_t.onhold
      ∨ (w.o.conn c).manage.connected < 2 then
    -- mgmt not yet ready for input
    (w, true)
  else
    let w := DisconnectHelper.sendStop env c w
    -- wait up to a few sec for state to change
    let timeout := time w + 5
    let r := DisconnectHelper.wait env c timeout fuel w
    if r.2 then
      (r.1.emit (Event.ShowWindowAsync
        (env.GetDlgItem (r.1.o.conn c).hwndStatus env.ID_DISCONNECT) SW_HIDE), true)
    else r

/-- Modelled from the spec: `CountConnState(check)`, which is not among the
files, is the number of connections among `o.conn[0 .. o.num_configs)` whose
state is `check`. -/
def CountConnState (o : options_t) (check : conn_state_t) : Nat :=
  ((List.range o.num_configs).filter (fun i => decide ((o.conn i).state = check))).length

/-- The first loop of `DetachAllOpenVPN`; `n` counts the indices that remain. -/
def DetachAllOpenVPN.detach (env : UIEnv) : Nat → Nat → World → World
  | 0, _, w => w
  | n + 1, i, w =>
    if (w.o.conn i).state ≠ conn_state_t.disconnected then
      DetachAllOpenVPN.detach env n (i + 1)
        ((w.setConn i (env.DetachOpenVPN (w.o.conn i))).emit (Event.DetachOpenVPN i))
    else DetachAllOpenVPN.detach env n (i + 1) w

/-- The second loop of `DetachAllOpenVPN`; `n` counts the iterations that remain. -/
def DetachAllOpenVPN.wait (env : UIEnv) : Nat → World → World
  | 0, w => w
  | n + 1, w =>
    let w := w.emit (Event.CountConnState conn_state_t.disconnected)
    if CountConnState w.o conn_state_t.disconnected = w.o.num_configs then w
    else DetachAllOpenVPN.wait env n (Sleep env 100 w)

/-- `WaitOnThread(c, timeout)` for `c = &o.conn[c]`. -/
def WaitOnThread (env : UIEnv) (c : Nat) (timeout : DWORD) (w : World) : World :=
  let h := env.OpenThread (w.o.conn c).threadId
  if h = 0 then w
  else
    let exited : Bool :=
      decide (env.WaitForSingleObject h timeout = WAIT_OBJECT_0) &&
        (match env.GetExitCodeThread h with
          | some exit_code => decide (exit_code ≠ STILL_ACTIVE)
          | none => false)
    let w :=
      if exited then w
      else
        -- Kill the thread
        (w.emit (Event.TerminateThread h 1)).setConn c
          { w.o.conn c with hwndStatus := 0, threadId := 0 }
    if h ≠ env.INVALID_HANDLE_VALUE then w.emit (Event.CloseHandle h) else w

/-- The third loop of `DetachAllOpenVPN`; `n` counts the indices that remain. -/
def DetachAllOpenVPN.kill (env : UIEnv) : Nat → Nat → World → World
  | 0, _, w => w
  | n + 1, i, w =>
    if (w.o.conn i).hwndStatus ≠ 0 then
      -- Status thread still running? kill it
      DetachAllOpenVPN.kill env n (i + 1) (WaitOnThread env i 0 w)
    else DetachAllOpenVPN.kill env n (i + 1) w

/-- `DetachAllOpenVPN()`. -/
def DetachAllOpenVPN (env : UIEnv) (w : World) : World :=
  -- Detach from the mgmt i/f of all connections
  let w := DetachAllOpenVPN.detach env w.o.num_configs 0 w
  -- Wait for all connections to detach (Max 1 sec)
  let w := DetachAllOpenVPN.wait env 10 w
  DetachAllOpenVPN.kill env w.o.num_configs 0 w

/-! ## Notions used to state the properties -/

/-- The call is a repeated one: the session semaphore exists and cannot be acquired. -/
def repeatedCall (env : UIEnv) : Prop :=
  env.InitSemaphore ≠ 0 ∧ env.WaitForSingleObject env.InitSemaphore 200 ≠ WAIT_OBJECT_0

/-- The function `f` on `o` leaves the seven fields alone that `InitializeUI`
forces before it calls `WSAStartup`. -/
def keepsForcedFields (f : options_t → options_t) : Prop :=
  ∀ o, (f o).silent_connection = o.silent_connection
    ∧ (f o).disable_save_passwords = o.disable_save_passwords
    ∧ (f o).disable_popup_messages = o.disable_popup_messages
    ∧ (f o).enable_persistent = o.enable_persistent
    ∧ (f o).proxy_source = o.proxy_source
    ∧ (f o).service_state = o.service_state
    ∧ (f o).hInstance = o.hInstance

/-- The indices below `o.num_configs`, in increasing order, of the connections
whose flags contain `FLAG_DAEMON_PERSISTENT`. -/
def plapIndices (env : UIEnv) (o : options_t) : List Nat :=
  (List.range o.num_configs).filter
    (fun i => decide ((o.conn i).flags &&& env.FLAG_DAEMON_PERSISTENT ≠ 0))

/-- The status string by the priority of the specification: `T` is the text
of the `ID_TXT_STATUS` control as `GetDlgItemText` fetched it. -/
def statusBySpec (c : connection_t) (T : List WCHAR) : List WCHAR :=
  if c.hwndStatus = 0 then []
  else if c.daemon_state = RECONNECTING ∧ c.state = conn_state_t.onhold ∧ T ≠ [] then T
  else if c.daemon_state ≠ [] then c.daemon_state
  else if T ≠ [] then T
  else []

/-- The connection cannot be stopped: the guard of `DisconnectHelper`. -/
def cannotStop (c : connection_t) : Prop :=
  c.state = conn_state_t.disconnected ∨ c.state = conn_state_t.onhold ∨ c.manage.connected < 2

def Event.isStopOpenVPN : Event → Bool
  | Event.StopOpenVPN _ => true
  | _ => false

def Event.isShowWindowAsync : Event → Bool
  | Event.ShowWindowAsync _ _ => true
  | _ => false

def Event.isSleep : Event → Bool
  | Event.Sleep _ => true
  | _ => false

def Event.isCountConnState : Event → Bool
  | Event.CountConnState _ => true
  | _ => false

def Event.isDetachOpenVPN : Event → Bool
  | Event.DetachOpenVPN _ => true
  | _ => false

/-- The calls `WaitOnThread` makes. -/
def Event.isThreadCall : Event → Bool
  | Event.TerminateThread _ _ => true
  | Event.CloseHandle _ => true
  | _ => false

/-- The world after `k` rounds of `Sleep(100)`. -/
def afterSleeps (env : UIEnv) : Nat → World → World
  | 0, w => w
  | k + 1, w => afterSleeps env k (Sleep env 100 w)

/-- One unsuccessful poll of the wait loop of `DetachAllOpenVPN`: the count is
taken, then the caller sleeps. -/
def failedPoll (env : UIEnv) (w : World) : World :=
  Sleep env 100 (w.emit (Event.CountConnState conn_state_t.disconnected))

/-- The world after `k` unsuccessful polls. -/
def afterPolls (env : UIEnv) : Nat → World → World
  | 0, w => w
  | k + 1, w => afterPolls env k (failedPoll env w)

/-- The calls of `k` unsuccessful polls, followed by a successful one when
`stopped` holds. -/
def pollCalls : Nat → Bool → List Event
  | 0, stopped => if stopped then [Event.CountConnState conn_state_t.disconnected] else []
  | k + 1, stopped =>
    Event.CountConnState conn_state_t.disconnected :: Event.Sleep 100 :: pollCalls k stopped

/-- Every connection below `o.num_configs` is in state `disconnected`. -/
def allDisconnected (o : options_t) : Prop :=
  CountConnState o conn_state_t.disconnected = o.num_configs

/-! ## Sample data -/

/-- A resource module with the string block 2 (strings 16 to 31) in English
and in German: English holds the string "Hi" at index 1, German has an empty
entry there. -/
def sampleRes : ResEnv where
  FindResourceEx := fun _ t n l =>
    if t = RT_STRING ∧ n = MAKEINTRESOURCE 2 then
      (if l = 0x0409 then 11 else if l = 0x0407 then 12 else 0)
    else 0
  FindResource := fun _ _ _ => 0
  LoadResource := fun _ r =>
    if r = 11 then some (fun i => [0, 2, 72, 105].getD i 0)
    else if r = 12 then some (fun _ => 0)
    else none
  malloc := fun _ => true
  vformat := fun f _ => f
  reg_ui_language := some 0x0407
  GetUserDefaultUILanguage := 0x0409

/-- A connection of a persistent daemon that is connected. -/
def sampleConn : connection_t where
  config_name := [118, 112, 110]
  state := conn_state_t.connected
  flags := 256
  hwndStatus := 40
  threadId := 7
  daemon_state := "CONNECTED".toList.map Char.toNat
  manage := { connected := 2 }

/-- Two configs, both of persistent daemons. -/
def sampleOptions : options_t where
  hInstance := 1
  hWnd := 0
  session_semaphore := 5
  silent_connection := 0
  disable_save_passwords := 0
  disable_popup_messages := 0
  enable_persistent := 0
  proxy_source := proxy_source_t.other 0
  service_state := service_state_t.other 0
  num_configs := 2
  conn := fun _ => sampleConn

/-- A first call of `InitializeUI`: the semaphore is acquired, RICHED20.DLL is
not yet loaded, `WSAStartup` succeeds. During a sleep the clock advances by
the time slept and every connection becomes disconnected. -/
def sampleEnv : UIEnv where
  FLAG_DAEMON_PERSISTENT := 256
  ID_TXT_STATUS := 162
  ID_DETACH := 164
  ID_DISCONNECT := 163
  IDS_ERR_LOAD_RICHED20 := 1103
  INVALID_HANDLE_VALUE := 2 ^ 64 - 1
  InitSemaphore := 5
  WaitForSingleObject := fun _ _ => 0
  GetModuleHandle := fun _ => 0
  WSAStartup := fun _ => 0
  GetDlgItem := fun h id => h * 1000 + id
  dlgItemText := fun _ _ => [72, 105]
  OpenThread := fun t => t + 100
  GetExitCodeThread := fun _ => some 0
  elapse := fun d s =>
    ({ s.1 with conn := fun i => { s.1.conn i with state := conn_state_t.disconnected } },
      s.2 + d)
  InitOptions := fun o => { o with silent_connection := 0, num_configs := 0 }
  GetRegistryKeys := fun o => { o with silent_connection := 0, disable_popup_messages := 0 }
  BuildFileList := fun o => { o with num_configs := 2 }
  dpiInitialize := fun o => o
  StopOpenVPN := fun c => c
  DetachOpenVPN := fun c => c

/-- The same, but RICHED20.DLL is already loaded in the process. -/
def sampleEnvRichedLoaded : UIEnv :=
  { sampleEnv with GetModuleHandle := fun n => if n = "RICHED20.DLL" then 77 else 0 }

/-- The same as `sampleEnv`, but the session semaphore cannot be acquired. -/
def sampleEnvSecond : UIEnv :=
  { sampleEnv with WaitForSingleObject := fun _ _ => 258 }

/-- The same as `sampleEnv`, but the status control holds a text of 300
characters. -/
def sampleEnvLongText : UIEnv :=
  { sampleEnv with dlgItemText := fun _ _ => List.replicate 300 65 }

/-- A connection with a status window whose daemon has not reported a state. -/
def sampleConnNoState : connection_t :=
  { sampleConn with daemon_state := [] }

/-- A world with `sampleOptions`. -/
def sampleWorld : World where
  o := sampleOptions
  ms := 1000000
  trace := []

/-! ## Theorems: localization.c -/

/-- C1. `FindResourceLang` looks a resource up in a fixed order: the requested
language, the default sublanguage of its primary language, the fallback
language, and last the language-neutral `FindResource`. The first of the four
that exists is returned, and the result is `NULL` exactly when all four fail. -/
theorem FindResourceLang_fallback_order (env : ResEnv) (hInstance : HINSTANCE)
    (resType resId : ResName) (L : LANGID) :
    (env.FindResourceEx hInstance resType resId L ≠ 0 →
      FindResourceLang env hInstance resType resId L
        = env.FindResourceEx hInstance resType resId L)
    ∧ (env.FindResourceEx hInstance resType resId L = 0 →
        env.FindResourceEx hInstance resType resId
          (MAKELANGID (PRIMARYLANGID L) SUBLANG_DEFAULT) ≠ 0 →
        FindResourceLang env hInstance resType resId L
          = env.FindResourceEx hInstance resType resId
              (MAKELANGID (PRIMARYLANGID L) SUBLANG_DEFAULT))
    ∧ (env.FindResourceEx hInstance resType resId L = 0 →
        env.FindResourceEx hInstance resType resId
          (MAKELANGID (PRIMARYLANGID L) SUBLANG_DEFAULT) = 0 →
        env.FindResourceEx hInstance resType resId fallbackLangId ≠ 0 →
        FindResourceLang env hInstance resType resId L
          = env.FindResourceEx hInstance resType resId fallbackLangId)
    ∧ (env.FindResourceEx hInstance resType resId L = 0 →
        env.FindResourceEx hInstance resType resId
          (MAKELANGID (PRIMARYLANGID L) SUBLANG_DEFAULT) = 0 →
        env.FindResourceEx hInstance resType resId fallbackLangId = 0 →
        FindResourceLang env hInstance resType resId L
          = env.FindResource hInstance resId resType)
    ∧ (FindResourceLang env hInstance resType resId L = 0 ↔
        (env.FindResourceEx hInstance resType resId L = 0
        ∧ env.FindResourceEx hInstance resType resId
            (MAKELANGID (PRIMARYLANGID L) SUBLANG_DEFAULT) = 0
        ∧ env.FindResourceEx hInstance resType resId fallbackLangId = 0
        ∧ env.FindResource hInstance resId resType = 0)) := by
  unfold FindResourceLang
  refine ⟨?_, ?_, ?_, ?_, ?_⟩
  · intro h1; simp [h1]
  · intro h1 h2; simp [h1, h2]
  · intro h1 h2 h3; simp [h1, h2, h3]
  · intro h1 h2 h3; simp [h1, h2, h3]
  · by_cases h1 : env.FindResourceEx hInstance resType resId L = 0
    · by_cases h2 : env.FindResourceEx hInstance resType resId
          (MAKELANGID (PRIMARYLANGID L) SUBLANG_DEFAULT) = 0
      · by_cases h3 : env.FindResourceEx hInstance resType resId fallbackLangId = 0
        · simp [h1, h2, h3]
        · simp [h1, h2, h3]
      · simp [h1, h2]
    · simp [h1]

/-- The search loop, started at entry `i` with its pointer on that entry,
ends without a string when the entry of the wanted index has length `0`. -/
theorem scanBlock_empty_entry (env : ResEnv) (mem : WMem) (resIndex : Nat)
    (h0 : mem (entryOffset mem resIndex) = 0) :
    ∀ (n i : Nat), i ≤ resIndex → resIndex < i + n →
      scanBlock env mem resIndex n i (entryOffset mem i) = Scan.notFound := by
  intro n
  induction n with
  | zero => intro i h1 h2; omega
  | succ n ih =>
    intro i h1 h2
    by_cases hi : i = resIndex
    · subst hi
      simp [scanBlock, h0]
    · have h3 : scanBlock env mem resIndex (n + 1) i (entryOffset mem i)
          = scanBlock env mem resIndex n (i + 1) (entryOffset mem (i + 1)) := by
        simp [scanBlock, hi, entryOffset]
      rw [h3]
      exact ih (i + 1) (by omega) (by omega)

/-- A failing lookup reaches the label `err`. -/
theorem LoadStringLang_try_fails (env : ResEnv) (hInstance : HINSTANCE) (stringId : UINT)
    (langId : LANGID) (buffer : WMem) (bufferSize : Nat) (args : va_list)
    (hfail : lookupFails env hInstance stringId langId) :
    LoadStringLang_try env hInstance stringId langId buffer bufferSize args = none := by
  unfold LoadStringLang_try
  rcases hfail with h | h | ⟨mem, h, h0⟩
  · simp [h]
  · by_cases hz : FindResourceLang env hInstance RT_STRING
        (MAKEINTRESOURCE (stringId / 16 + 1)) langId = 0
    · simp [hz]
    · simp [hz, h]
  · by_cases hz : FindResourceLang env hInstance RT_STRING
        (MAKEINTRESOURCE (stringId / 16 + 1)) langId = 0
    · simp [hz]
    · have hs := scanBlock_empty_entry env mem (stringId % 16) h0 16 0
        (Nat.zero_le _) (by have := Nat.mod_lt stringId (show 16 > 0 by decide); omega)
      simp only [entryOffset] at hs
      simp [hz, h, hs]

/-- A call for the fallback language makes no recursive call. -/
theorem LoadStringLang_calls_fallback (env : ResEnv) (hInstance : HINSTANCE)
    (stringId : UINT) (buffer : WMem) (bufferSize : Nat) (args : va_list) :
    (LoadStringLang env hInstance stringId fallbackLangId buffer bufferSize args).calls = 0 := by
  rw [LoadStringLang]
  cases LoadStringLang_try env hInstance stringId fallbackLangId buffer bufferSize args with
  | none => simp
  | some r => simp

/-- A call for the fallback language returns what the lookup in the fallback
language gives, and `0` with the buffer untouched when that lookup reaches
`err`. -/
theorem LoadStringLang_result_fallback (env : ResEnv) (hInstance : HINSTANCE)
    (stringId : UINT) (buffer : WMem) (bufferSize : Nat) (args : va_list) :
    (LoadStringLang env hInstance stringId fallbackLangId buffer bufferSize args).result
      = (LoadStringLang_try env hInstance stringId fallbackLangId buffer bufferSize
          args).getD (some (0, buffer)) := by
  rw [LoadStringLang]
  cases LoadStringLang_try env hInstance stringId fallbackLangId buffer bufferSize args with
  | none => simp
  | some r => simp

/-- C2. `LoadStringLang` falls back to the default language when the string is
not found. If the lookup in `langId` fails (no resource block, the block cannot
be loaded, or the entry has length `0`) and `langId` differs from the fallback
language, the function makes exactly one recursive call, for the fallback
language, and returns its result: what the lookup in the fallback language
gives, or `0` with the buffer untouched when that lookup reaches `err` too. If
the lookup fails and `langId` is the fallback language, no recursive call is
made and the result is `0` with the buffer untouched. A lookup that returns
from inside the loop is the result, without a recursive call. Every call makes
at most one recursive call (the function is total), and
`LoadLocalizedStringBuf` is `LoadStringLang` at the GUI language. -/
theorem LoadStringLang_falls_back (env : ResEnv) (hInstance : HINSTANCE) (stringId : UINT)
    (langId : LANGID) (buffer : WMem) (bufferSize : Nat) (args : va_list)
    (gui_language : LANGID) :
    (lookupFails env hInstance stringId langId → langId ≠ fallbackLangId →
      (LoadStringLang env hInstance stringId langId buffer bufferSize args).result
        = (LoadStringLang env hInstance stringId fallbackLangId buffer bufferSize args).result
      ∧ (LoadStringLang env hInstance stringId langId buffer bufferSize args).result
        = (LoadStringLang_try env hInstance stringId fallbackLangId buffer bufferSize
            args).getD (some (0, buffer))
      ∧ (LoadStringLang env hInstance stringId langId buffer bufferSize args).calls = 1)
    ∧ (lookupFails env hInstance stringId langId → langId = fallbackLangId →
        (LoadStringLang env hInstance stringId langId buffer bufferSize args).result
          = some (0, buffer)
        ∧ (LoadStringLang env hInstance stringId langId buffer bufferSize args).calls = 0)
    ∧ (∀ r, LoadStringLang_try env hInstance stringId langId buffer bufferSize args = some r →
        (LoadStringLang env hInstance stringId langId buffer bufferSize args).result = r
        ∧ (LoadStringLang env hInstance stringId langId buffer bufferSize args).calls = 0)
    ∧ (LoadStringLang env hInstance stringId langId buffer bufferSize args).calls ≤ 1
    ∧ (LoadLocalizedStringBuf env hInstance gui_language buffer bufferSize stringId args).1
        = LoadStringLang env hInstance stringId (GetGUILanguage env gui_language).1
            buffer bufferSize args := by
  refine ⟨?_, ?_, ?_, ?_, rfl⟩
  · intro hfail hne
    have hcall : LoadStringLang env hInstance stringId langId buffer bufferSize args
        = { result := (LoadStringLang env hInstance stringId fallbackLangId buffer
              bufferSize args).result
            calls := (LoadStringLang env hInstance stringId fallbackLangId buffer
              bufferSize args).calls + 1 } := by
      rw [LoadStringLang, LoadStringLang_try_fails env hInstance stringId langId buffer
        bufferSize args hfail]
      simp [hne]
    refine ⟨?_, ?_, ?_⟩
    · rw [hcall]
    · rw [hcall]
      exact LoadStringLang_result_fallback env hInstance stringId buffer bufferSize args
    · rw [hcall]
      simp [LoadStringLang_calls_fallback]
  · intro hfail he
    rw [LoadStringLang, LoadStringLang_try_fails env hInstance stringId langId buffer
      bufferSize args hfail]
    simp [he]
  · intro r hr
    rw [LoadStringLang, hr]
    exact ⟨rfl, rfl⟩
  · rw [LoadStringLang]
    cases LoadStringLang_try env hInstance stringId langId buffer bufferSize args with
    | some r => simp
    | none =>
      by_cases hne : langId = fallbackLangId
      · simp [hne]
      · simp [hne, LoadStringLang_calls_fallback]

/-- String 17 has an empty entry in the German block and is "Hi" in the
English one: the German lookup fails, one recursive call is made, and the call
returns 2 with "Hi" and a NUL at the start of the buffer. -/
theorem LoadStringLang_falls_back_witness :
    lookupFails sampleRes 1 17 0x0407
    ∧ (LoadStringLang sampleRes 1 17 0x0407 (fun _ => 7) 8 []).calls = 1
    ∧ (LoadStringLang sampleRes 1 17 0x0407 (fun _ => 7) 8 []).result.map
        (fun r => (r.1, [r.2 0, r.2 1, r.2 2, r.2 3, r.2 7]))
        = some (2, [72, 105, 0, 7, 0]) :=
  ⟨Or.inr (Or.inr ⟨fun _ => 0, rfl, rfl⟩),
   ((LoadStringLang_falls_back sampleRes 1 17 0x0407 (fun _ => 7) 8 [] 0).1
      (Or.inr (Or.inr ⟨fun _ => 0, rfl, rfl⟩)) (by decide)).2.2,
   (congrArg (Option.map (fun r : Nat × WMem => (r.1, [r.2 0, r.2 1, r.2 2, r.2 3, r.2 7])))
      ((LoadStringLang_falls_back sampleRes 1 17 0x0407 (fun _ => 7) 8 [] 0).1
        (Or.inr (Or.inr ⟨fun _ => 0, rfl, rfl⟩)) (by decide)).2.1).trans rfl⟩

/-- The English lookup of string 17 finds "Hi": the call returns 2 and the
buffer starts with the two characters and a NUL. -/
theorem LoadStringLang_sample_found :
    (LoadStringLang sampleRes 1 17 fallbackLangId (fun _ => 7) 8 []).result.map
      (fun r => (r.1, [r.2 0, r.2 1, r.2 2, r.2 3, r.2 7]))
      = some (2, [72, 105, 0, 7, 0]) := by
  rw [LoadStringLang]
  rfl

/-- In the sample module the resource of block 2 is found in German for the
language German (Austria), through the default sublanguage, and in English
for French, through the fallback language. -/
theorem FindResourceLang_sample :
    FindResourceLang sampleRes 1 RT_STRING (MAKEINTRESOURCE 2) 0x0C07 = 12
    ∧ FindResourceLang sampleRes 1 RT_STRING (MAKEINTRESOURCE 2) 0x040C = 11
    ∧ FindResourceLang sampleRes 1 RT_STRING (MAKEINTRESOURCE 3) 0x040C = 0 := by
  decide

/-! ## Theorems: plap/ui_glue.c -/

/-- C3 (evaluation of the code). On a first call of `InitializeUI` in which
RICHED20.DLL is already loaded in the process, the function returns 1 and logs
`IDS_ERR_LOAD_RICHED20`, whatever `WSAStartup` would return; `o` is not touched. -/
theorem InitializeUI_riched20_loaded_fails (env : UIEnv) (hinstance : HINSTANCE) (w : World)
    (hfirst : ¬ repeatedCall env) (hloaded : env.GetModuleHandle "RICHED20.DLL" ≠ 0) :
    (InitializeUI env hinstance w).1 = 1
    ∧ (InitializeUI env hinstance w).2.trace
        = w.trace ++ [Event.srand (time w % 4294967296),
            Event.MsgToEventLog EVENTLOG_ERROR_TYPE (LogMsg.localized env.IDS_ERR_LOAD_RICHED20)]
    ∧ (InitializeUI env hinstance w).2.o = w.o := by
  unfold repeatedCall at hfirst
  simp only [InitializeUI, World.emit]
  rw [if_neg hfirst, if_pos hloaded]
  simp

/-- The failing input of C3: the semaphore is acquired, RICHED20.DLL is loaded
and `WSAStartup` would return 0, yet `InitializeUI` returns 1. -/
theorem InitializeUI_riched20_loaded_fails_witness :
    sampleEnvRichedLoaded.WSAStartup (MAKEWORD 2 2) = 0
    ∧ (InitializeUI sampleEnvRichedLoaded 1 sampleWorld).1 = 1 :=
  ⟨rfl, (InitializeUI_riched20_loaded_fails sampleEnvRichedLoaded 1 sampleWorld
    (by simp [repeatedCall, sampleEnvRichedLoaded, sampleEnv, WAIT_OBJECT_0])
    (by simp [sampleEnvRichedLoaded])).1⟩

/-- C4. A repeated call of `InitializeUI` (the session semaphore exists and
cannot be acquired) returns 0 when `hinstance` is the stored `o.hInstance` and
1 when it differs; in both cases `o` is unchanged, and none of
`InitManagement`, `InitOptions`, `GetRegistryKeys` and `BuildFileList` runs. -/
theorem InitializeUI_repeated_call (env : UIEnv) (hinstance : HINSTANCE) (w : World)
    (hrep : repeatedCall env) :
    (InitializeUI env hinstance w).1 = (if hinstance = w.o.hInstance then 0 else 1)
    ∧ (InitializeUI env hinstance w).2.o = w.o
    ∧ ∃ evs, (InitializeUI env hinstance w).2.trace = w.trace ++ evs
        ∧ Event.InitManagement ∉ evs ∧ Event.InitOptions ∉ evs
        ∧ Event.GetRegistryKeys ∉ evs ∧ Event.BuildFileList ∉ evs := by
  unfold repeatedCall at hrep
  simp only [InitializeUI, World.emit]
  rw [if_pos hrep]
  by_cases hh : hinstance = w.o.hInstance
  · rw [if_pos hh, if_pos hh]
    exact ⟨rfl, rfl, [Event.srand (time w % 4294967296)], rfl, by simp, by simp, by simp, by simp⟩
  · rw [if_neg hh, if_neg hh]
    exact ⟨rfl, rfl, [Event.srand (time w % 4294967296), Event.MsgToEventLog EVENTLOG_ERROR_TYPE (LogMsg.fmt
        "InitializeUI called a second time with a different hinstance -- multiple instances of the UI not supported."
        [])], by simp, by simp, by simp, by simp, by simp⟩

/-- A repeated call with the stored instance handle, and one with another. -/
theorem InitializeUI_repeated_call_witness :
    (InitializeUI sampleEnvSecond 1 sampleWorld).1 = 0
    ∧ (InitializeUI sampleEnvSecond 2 sampleWorld).1 = 1 :=
  ⟨(InitializeUI_repeated_call sampleEnvSecond 1 sampleWorld
      (by simp [repeatedCall, sampleEnvSecond, sampleEnv, WAIT_OBJECT_0])).1,
   (InitializeUI_repeated_call sampleEnvSecond 2 sampleWorld
      (by simp [repeatedCall, sampleEnvSecond, sampleEnv, WAIT_OBJECT_0])).1⟩

/-- C10. A first-time `InitializeUI(hinstance)` that returns 0 has forced the
login-screen defaults, whatever `InitOptions` and `GetRegistryKeys` put into
`o`: after the assignments `silent_connection`, `disable_save_passwords`,
`disable_popup_messages` and `enable_persistent` are 1, `proxy_source` is
`windows`, `service_state` is `service_connected` and `hInstance` is
`hinstance`. The returned `o` is that `o` passed through `BuildFileList` and
`dpi_initialize`, and holds the same seven values when these two leave the
seven fields alone. -/
theorem InitializeUI_forces_login_defaults (env : UIEnv) (hinstance : HINSTANCE) (w : World)
    (hfirst : ¬ repeatedCall env) (hret : (InitializeUI env hinstance w).1 = 0) :
    (∀ w1 : World,
      (InitializeUI.setOptions env hinstance env.InitSemaphore w1).o.silent_connection = 1
      ∧ (InitializeUI.setOptions env hinstance env.InitSemaphore w1).o.disable_save_passwords = 1
      ∧ (InitializeUI.setOptions env hinstance env.InitSemaphore w1).o.disable_popup_messages = 1
      ∧ (InitializeUI.setOptions env hinstance env.InitSemaphore w1).o.enable_persistent = 1
      ∧ (InitializeUI.setOptions env hinstance env.InitSemaphore w1).o.proxy_source
          = proxy_source_t.windows
      ∧ (InitializeUI.setOptions env hinstance env.InitSemaphore w1).o.service_state
          = service_state_t.service_connected
      ∧ (InitializeUI.setOptions env hinstance env.InitSemaphore w1).o.hInstance = hinstance)
    ∧ (InitializeUI env hinstance w).2.o
        = env.dpiInitialize (env.BuildFileList
            (InitializeUI.setOptions env hinstance env.InitSemaphore
              (((w.emit (Event.srand (time w % 4294967296))).emit (Event.LoadLibrary "RICHED20.DLL")).emit
                Event.InitManagement)).o)
    ∧ (keepsForcedFields env.BuildFileList → keepsForcedFields env.dpiInitialize →
        (InitializeUI env hinstance w).2.o.silent_connection = 1
        ∧ (InitializeUI env hinstance w).2.o.disable_save_passwords = 1
        ∧ (InitializeUI env hinstance w).2.o.disable_popup_messages = 1
        ∧ (InitializeUI env hinstance w).2.o.enable_persistent = 1
        ∧ (InitializeUI env hinstance w).2.o.proxy_source = proxy_source_t.windows
        ∧ (InitializeUI env hinstance w).2.o.service_state
            = service_state_t.service_connected
        ∧ (InitializeUI env hinstance w).2.o.hInstance = hinstance) := by
  have hfinal : (InitializeUI env hinstance w).2.o
      = env.dpiInitialize (env.BuildFileList
          (InitializeUI.setOptions env hinstance env.InitSemaphore
            (((w.emit (Event.srand (time w % 4294967296))).emit (Event.LoadLibrary "RICHED20.DLL")).emit
              Event.InitManagement)).o) := by
    unfold repeatedCall at hfirst
    simp only [InitializeUI] at hret ⊢
    rw [if_neg hfirst] at hret ⊢
    by_cases hl : env.GetModuleHandle "RICHED20.DLL" ≠ 0
    · rw [if_pos hl] at hret
      simp at hret
    · rw [if_neg hl] at hret ⊢
      by_cases hs : env.WSAStartup (MAKEWORD 2 2) ≠ 0
      · rw [if_pos hs] at hret
        exact absurd hret hs
      · rw [if_neg hs]
        rfl
  refine ⟨fun w1 => ⟨rfl, rfl, rfl, rfl, rfl, rfl, rfl⟩, hfinal, ?_⟩
  intro hbuild hdpi
  rw [hfinal]
  obtain ⟨d1, d2, d3, d4, d5, d6, d7⟩ := hdpi (env.BuildFileList
    (InitializeUI.setOptions env hinstance env.InitSemaphore
      (((w.emit (Event.srand (time w % 4294967296))).emit (Event.LoadLibrary "RICHED20.DLL")).emit
        Event.InitManagement)).o)
  obtain ⟨b1, b2, b3, b4, b5, b6, b7⟩ := hbuild
    (InitializeUI.setOptions env hinstance env.InitSemaphore
      (((w.emit (Event.srand (time w % 4294967296))).emit (Event.LoadLibrary "RICHED20.DLL")).emit
        Event.InitManagement)).o
  exact ⟨d1.trans b1, d2.trans b2, d3.trans b3, d4.trans b4, d5.trans b5,
    d6.trans b6, d7.trans b7⟩

/-- A successful first call: the defaults are forced although `InitOptions`
and `GetRegistryKeys` cleared some of them. -/
theorem InitializeUI_forces_login_defaults_witness :
    (InitializeUI sampleEnv 9 sampleWorld).1 = 0
    ∧ (InitializeUI sampleEnv 9 sampleWorld).2.o.silent_connection = 1
    ∧ (InitializeUI sampleEnv 9 sampleWorld).2.o.disable_save_passwords = 1
    ∧ (InitializeUI sampleEnv 9 sampleWorld).2.o.disable_popup_messages = 1
    ∧ (InitializeUI sampleEnv 9 sampleWorld).2.o.enable_persistent = 1
    ∧ (InitializeUI sampleEnv 9 sampleWorld).2.o.proxy_source = proxy_source_t.windows
    ∧ (InitializeUI sampleEnv 9 sampleWorld).2.o.service_state
        = service_state_t.service_connected
    ∧ (InitializeUI sampleEnv 9 sampleWorld).2.o.hInstance = 9 :=
  ⟨rfl, (InitializeUI_forces_login_defaults sampleEnv 9 sampleWorld
    (by simp [repeatedCall, sampleEnv, WAIT_OBJECT_0]) rfl).2.2
    (fun _ => ⟨rfl, rfl, rfl, rfl, rfl, rfl, rfl⟩)
    (fun _ => ⟨rfl, rfl, rfl, rfl, rfl, rfl, rfl⟩)⟩

/-- C6 (amended). For `len > 0`, `GetConnectionStatusText` writes the status
chosen by the fixed priority, where `T` is the first 255 characters of the
text of the `ID_TXT_STATUS` control (what `GetDlgItemText` stores in the local
buffer of 256 cells): empty without a status window; `T` when the daemon
state is "RECONNECTING", the connection is on hold and `T` is not empty; else
the daemon state when not empty; else `T` when not empty; else empty. The
status is cut to `len - 1` characters and followed by a NUL, so at most `len`
cells are written. -/
theorem GetConnectionStatusText_priority (env : UIEnv) (c : connection_t) (len : Nat)
    (hlen : 0 < len) :
    GetConnectionStatusText env c len
      = some ((statusBySpec c
          ((env.dlgItemText c.hwndStatus env.ID_TXT_STATUS).take 255)).take (len - 1) ++ [0])
    ∧ ((statusBySpec c
          ((env.dlgItemText c.hwndStatus env.ID_TXT_STATUS).take 255)).take (len - 1)).length
        ≤ len - 1
    ∧ ((statusBySpec c
          ((env.dlgItemText c.hwndStatus env.ID_TXT_STATUS).take 255)).take (len - 1)
          ++ [0]).length ≤ len
    ∧ ((env.dlgItemText c.hwndStatus env.ID_TXT_STATUS).length ≤ 255 →
        GetConnectionStatusText env c len
          = some ((statusBySpec c
              (env.dlgItemText c.hwndStatus env.ID_TXT_STATUS)).take (len - 1) ++ [0])) := by
  have hne : len ≠ 0 := Nat.pos_iff_ne_zero.mp hlen
  have hT : GetDlgItemText env c.hwndStatus env.ID_TXT_STATUS 256
      = (env.dlgItemText c.hwndStatus env.ID_TXT_STATUS).take 255 := rfl
  have hmain : GetConnectionStatusText env c len
      = some ((statusBySpec c
          ((env.dlgItemText c.hwndStatus env.ID_TXT_STATUS).take 255)).take (len - 1) ++ [0]) := by
    rw [← hT]
    unfold GetConnectionStatusText statusBySpec wcsncpy_s_truncate sntprintf_0
    by_cases h0 : c.hwndStatus = 0
    · simp [h0, hlen]
    · by_cases h1 : c.daemon_state = RECONNECTING ∧ c.state = conn_state_t.onhold
          ∧ GetDlgItemText env c.hwndStatus env.ID_TXT_STATUS 256 ≠ []
      · simp only [ne_eq, h0, not_false_eq_true, if_true, if_false, h1, and_self, hne]
      · by_cases h2 : c.daemon_state = []
        · by_cases h3 : GetDlgItemText env c.hwndStatus env.ID_TXT_STATUS 256 = []
          · simp [h0, h1, h2, h3, hlen]
          · simp [h0, h1, h2, h3, hne]
        · simp [h0, h1, h2, hne]
  refine ⟨hmain, ?_, ?_, ?_⟩
  · exact List.length_take_le _ _
  · have := List.length_take_le (len - 1)
      (statusBySpec c ((env.dlgItemText c.hwndStatus env.ID_TXT_STATUS).take 255))
    simp only [List.length_append, List.length_singleton]
    omega
  · intro h
    rw [hmain, List.take_of_length_le h]

/-- A connection on hold whose daemon reports "RECONNECTING": the window text
"Hi" is shown, cut to one character by a buffer of two cells. -/
theorem GetConnectionStatusText_priority_witness :
    GetConnectionStatusText sampleEnv
      { sampleConn with daemon_state := RECONNECTING, state := conn_state_t.onhold } 2
      = some [72, 0] :=
  (GetConnectionStatusText_priority sampleEnv
    { sampleConn with daemon_state := RECONNECTING, state := conn_state_t.onhold } 2
    (by decide)).1

set_option maxRecDepth 100000 in
/-- C6 (counterexample). The status control holds 300 characters, the daemon
has reported no state and the caller passes a buffer of 512 cells: the text of
the control fits in `len - 1` characters, yet the output is not that text but
its first 255 characters. -/
theorem GetConnectionStatusText_not_control_text :
    (sampleEnvLongText.dlgItemText sampleConnNoState.hwndStatus
        sampleEnvLongText.ID_TXT_STATUS).length = 300
    ∧ GetConnectionStatusText sampleEnvLongText sampleConnNoState 512
        = some (List.replicate 255 65 ++ [0])
    ∧ GetConnectionStatusText sampleEnvLongText sampleConnNoState 512
        ≠ some ((statusBySpec sampleConnNoState
            (sampleEnvLongText.dlgItemText sampleConnNoState.hwndStatus
              sampleEnvLongText.ID_TXT_STATUS)).take (512 - 1) ++ [0]) := by
  decide

/-- The world after `k` rounds of sleeping has `k` more `Sleep(100)` calls in
its trace and nothing else. -/
theorem afterSleeps_trace (env : UIEnv) :
    ∀ (k : Nat) (w : World),
      (afterSleeps env k w).trace = w.trace ++ List.replicate k (Event.Sleep 100) := by
  intro k
  induction k with
  | zero => intro w; simp [afterSleeps]
  | succ k ih =>
    intro w
    rw [afterSleeps, ih]
    simp [Sleep, List.replicate_succ]

/-- The wait loop of `DisconnectHelper` sleeps `k` times, where the loop test
held before each of the sleeps; it is left only when the test fails, and is
cut short only when the fuel is used up. -/
theorem DisconnectHelper_wait_spec (env : UIEnv) (c timeout : Nat) :
    ∀ (fuel : Nat) (w : World), ∃ k, k ≤ fuel
      ∧ (DisconnectHelper.wait env c timeout fuel w).1 = afterSleeps env k w
      ∧ (∀ j, j < k → DisconnectHelper.waiting c timeout (afterSleeps env j w) = true)
      ∧ ((DisconnectHelper.wait env c timeout fuel w).2 = true →
          DisconnectHelper.waiting c timeout (afterSleeps env k w) = false)
      ∧ ((DisconnectHelper.wait env c timeout fuel w).2 = false → k = fuel) := by
  intro fuel
  induction fuel with
  | zero =>
    intro w
    exact ⟨0, le_refl _, rfl, fun j hj => absurd hj (Nat.not_lt_zero j),
      fun h => by simp [DisconnectHelper.wait] at h, fun _ => rfl⟩
  | succ fuel ih =>
    intro w
    by_cases hw : DisconnectHelper.waiting c timeout w = true
    · obtain ⟨k, hk, h1, h2, h3, h4⟩ := ih (Sleep env 100 w)
      refine ⟨k + 1, by omega, ?_, ?_, ?_, ?_⟩
      · simp only [DisconnectHelper.wait, hw, if_true, afterSleeps]
        exact h1
      · intro j hj
        cases j with
        | zero => exact hw
        | succ j => exact h2 j (by omega)
      · intro h
        simp only [DisconnectHelper.wait, hw, if_true] at h
        exact h3 h
      · intro h
        simp only [DisconnectHelper.wait, hw, if_true] at h
        rw [h4 h]
    · have hw2 : DisconnectHelper.waiting c timeout w = false := by
        simpa using hw
      refine ⟨0, Nat.zero_le _, ?_, fun j hj => absurd hj (Nat.not_lt_zero j), ?_, ?_⟩
      · simp [DisconnectHelper.wait, hw2, afterSleeps]
      · intro _
        exact hw2
      · intro h
        simp [DisconnectHelper.wait, hw2] at h

/-- Under a clock that advances with every sleep, the wait loop is left
within `timeout * 1000 - w.ms + 1` tests. -/
theorem DisconnectHelper_wait_terminates (env : UIEnv) (c timeout : Nat)
    (hadv : ∀ s, s.2 < (env.elapse 100 s).2) :
    ∀ (fuel : Nat) (w : World), timeout * 1000 ≤ w.ms + fuel →
      (DisconnectHelper.wait env c timeout (fuel + 1) w).2 = true := by
  intro fuel
  induction fuel with
  | zero =>
    intro w h
    have ht : ¬ (timeout > time w) := by
      unfold time
      have : timeout ≤ w.ms / 1000 := by
        rw [Nat.le_div_iff_mul_le (by decide)]
        omega
      omega
    simp [DisconnectHelper.wait, DisconnectHelper.waiting, ht]
  | succ fuel ih =>
    intro w h
    by_cases hw : DisconnectHelper.waiting c timeout w = true
    · have hs : w.ms < (Sleep env 100 w).ms := hadv (w.o, w.ms)
      have := ih (Sleep env 100 w) (by omega)
      rw [DisconnectHelper.wait]
      simp only [hw, if_true]
      exact this
    · have hw2 : DisconnectHelper.waiting c timeout w = false := by
        simpa using hw
      rw [DisconnectHelper.wait]
      simp [hw2]

/-- The trace `DisconnectHelper` leaves when the connection can be stopped:
the button is shown, the stop is sent, the caller sleeps `k` times, and the
button is hidden again when the function returns. -/
theorem DisconnectHelper_trace (env : UIEnv) (fuel c : Nat) (w : World)
    (h : ¬ cannotStop (w.o.conn c)) :
    ∃ k hide, k ≤ fuel ∧ (∀ e, e ∈ hide → Event.isShowWindowAsync e = true)
      ∧ (DisconnectHelper env fuel c w).1.trace
        = w.trace ++ [Event.ShowWindowAsync
              (env.GetDlgItem (w.o.conn c).hwndStatus env.ID_DISCONNECT) SW_SHOW,
            Event.StopOpenVPN c]
          ++ List.replicate k (Event.Sleep 100) ++ hide := by
  unfold cannotStop at h
  obtain ⟨k, hk, h1, -, -, -⟩ := DisconnectHelper_wait_spec env c
    (time (DisconnectHelper.sendStop env c w) + 5) fuel (DisconnectHelper.sendStop env c w)
  have ht := afterSleeps_trace env k (DisconnectHelper.sendStop env c w)
  rw [← h1] at ht
  have hs : (DisconnectHelper.sendStop env c w).trace
      = w.trace ++ [Event.ShowWindowAsync
          (env.GetDlgItem (w.o.conn c).hwndStatus env.ID_DISCONNECT) SW_SHOW,
        Event.StopOpenVPN c] := by
    simp [DisconnectHelper.sendStop, World.emit, World.setConn]
  rw [hs] at ht
  simp only [DisconnectHelper, if_neg h]
  by_cases hr : (DisconnectHelper.wait env c
      (time (DisconnectHelper.sendStop env c w) + 5) fuel
      (DisconnectHelper.sendStop env c w)).2 = true
  · refine ⟨k, [Event.ShowWindowAsync (env.GetDlgItem
      ((DisconnectHelper.wait env c (time (DisconnectHelper.sendStop env c w) + 5) fuel
        (DisconnectHelper.sendStop env c w)).1.o.conn c).hwndStatus env.ID_DISCONNECT)
      SW_HIDE], hk, ?_, ?_⟩
    · intro e he
      simp only [List.mem_singleton] at he
      subst he
      rfl
    · rw [if_pos hr]
      simp only [World.emit, ht]
  · refine ⟨k, [], hk, ?_, ?_⟩
    · intro e he
      simp at he
    · rw [if_neg hr, ht]
      simp

/-- C7. `DisconnectHelper` does nothing when the connection cannot be stopped
(state `disconnected` or `onhold`, or `manage.connected < 2`): it returns with
the world, and so the connection and the trace of calls, unchanged. In every
other case `StopOpenVPN(c)` is called exactly once, however long the wait
loop runs. -/
theorem DisconnectHelper_guard (env : UIEnv) (fuel c : Nat) (w : World) :
    (cannotStop (w.o.conn c) → DisconnectHelper env fuel c w = (w, true))
    ∧ (¬ cannotStop (w.o.conn c) →
        (DisconnectHelper env fuel c w).1.trace.countP Event.isStopOpenVPN
          = w.trace.countP Event.isStopOpenVPN + 1
        ∧ (DisconnectHelper env fuel c w).1.trace.count (Event.StopOpenVPN c)
          = w.trace.count (Event.StopOpenVPN c) + 1) := by
  constructor
  · intro h
    unfold cannotStop at h
    simp only [DisconnectHelper, if_pos h]
  · intro h
    obtain ⟨k, hide, -, hh, ht⟩ := DisconnectHelper_trace env fuel c w h
    have h1 : (List.replicate k (Event.Sleep 100)).countP Event.isStopOpenVPN = 0 := by
      rw [List.countP_eq_zero]
      intro a ha
      rw [List.eq_of_mem_replicate ha]
      simp [Event.isStopOpenVPN]
    have h2 : hide.countP Event.isStopOpenVPN = 0 := by
      rw [List.countP_eq_zero]
      intro a ha
      have := hh a ha
      cases a <;> simp_all [Event.isShowWindowAsync, Event.isStopOpenVPN]
    have h3 : (List.replicate k (Event.Sleep 100)).count (Event.StopOpenVPN c) = 0 := by
      rw [List.count_eq_zero]
      intro ha
      have := List.eq_of_mem_replicate ha
      simp at this
    have h4 : hide.count (Event.StopOpenVPN c) = 0 := by
      rw [List.count_eq_zero]
      intro ha
      have := hh _ ha
      simp [Event.isShowWindowAsync] at this
    rw [ht]
    constructor
    · simp only [List.countP_append, h1, h2]
      simp [Event.isStopOpenVPN]
    · simp only [List.count_append, h3, h4]
      simp

/-- A connected connection with a ready management interface is stopped once;
an already disconnected one is left alone. -/
theorem DisconnectHelper_guard_witness :
    (DisconnectHelper sampleEnv 60 0 sampleWorld).1.trace.count (Event.StopOpenVPN 0) = 1
    ∧ DisconnectHelper sampleEnv 60 0
        (sampleWorld.setConn 0 { sampleConn with state := conn_state_t.disconnected })
      = (sampleWorld.setConn 0 { sampleConn with state := conn_state_t.disconnected }, true) :=
  ⟨((DisconnectHelper_guard sampleEnv 60 0 sampleWorld).2
      (by simp [cannotStop, sampleWorld, sampleOptions, sampleConn])).2,
   (DisconnectHelper_guard sampleEnv 60 0
      (sampleWorld.setConn 0 { sampleConn with state := conn_state_t.disconnected })).1
      (by simp [cannotStop, World.setConn])⟩

/-- C8. The wait of `DisconnectHelper` after sending stop, started in the
world `w` in which the clock is read (`t0 = time w`), is a bounded polling
loop. It sleeps 100 ms `k` times, and before each sleep the clock was below
`t0 + 5` and the state neither `onhold` nor `disconnected`; when the loop is
left the state is `onhold` or `disconnected` or the clock has reached
`t0 + 5`. Under a clock that advances with every sleep the loop is left
within 5001 tests. `DisconnectHelper` runs exactly this loop after
`StopOpenVPN`. -/
theorem DisconnectHelper_wait_bounded (env : UIEnv) (c fuel : Nat) (w : World) :
    (∃ k, k ≤ fuel
      ∧ (DisconnectHelper.wait env c (time w + 5) fuel w).1 = afterSleeps env k w
      ∧ (DisconnectHelper.wait env c (time w + 5) fuel w).1.trace
          = w.trace ++ List.replicate k (Event.Sleep 100)
      ∧ (∀ j, j < k → time (afterSleeps env j w) < time w + 5
          ∧ ((afterSleeps env j w).o.conn c).state ≠ conn_state_t.onhold
          ∧ ((afterSleeps env j w).o.conn c).state ≠ conn_state_t.disconnected)
      ∧ ((DisconnectHelper.wait env c (time w + 5) fuel w).2 = true →
          ((afterSleeps env k w).o.conn c).state = conn_state_t.onhold
          ∨ ((afterSleeps env k w).o.conn c).state = conn_state_t.disconnected
          ∨ time w + 5 ≤ time (afterSleeps env k w))
      ∧ ((DisconnectHelper.wait env c (time w + 5) fuel w).2 = false → k = fuel))
    ∧ ((∀ s, s.2 < (env.elapse 100 s).2) → 5001 ≤ fuel →
        (DisconnectHelper.wait env c (time w + 5) fuel w).2 = true)
    ∧ (∀ w0 : World, ¬ cannotStop (w0.o.conn c) →
        DisconnectHelper env fuel c w0
          = if (DisconnectHelper.wait env c (time (DisconnectHelper.sendStop env c w0) + 5)
                fuel (DisconnectHelper.sendStop env c w0)).2 = true
            then ((DisconnectHelper.wait env c
                (time (DisconnectHelper.sendStop env c w0) + 5)
                fuel (DisconnectHelper.sendStop env c w0)).1.emit
                  (Event.ShowWindowAsync (env.GetDlgItem
                    ((DisconnectHelper.wait env c
                      (time (DisconnectHelper.sendStop env c w0) + 5)
                      fuel (DisconnectHelper.sendStop env c w0)).1.o.conn c).hwndStatus
                    env.ID_DISCONNECT) SW_HIDE), true)
            else DisconnectHelper.wait env c (time (DisconnectHelper.sendStop env c w0) + 5)
                fuel (DisconnectHelper.sendStop env c w0)) := by
  refine ⟨?_, ?_, ?_⟩
  · obtain ⟨k, hk, h1, h2, h3, h4⟩ := DisconnectHelper_wait_spec env c (time w + 5) fuel w
    refine ⟨k, hk, h1, ?_, ?_, ?_, h4⟩
    · rw [h1, afterSleeps_trace]
    · intro j hj
      have := h2 j hj
      simpa [DisconnectHelper.waiting, and_assoc] using this
    · intro hr
      have := h3 hr
      simp only [DisconnectHelper.waiting, Bool.and_eq_false_iff, decide_eq_false_iff_not,
        not_not, gt_iff_lt, not_lt] at this
      rcases this with (h | h) | h
      · exact Or.inr (Or.inr h)
      · exact Or.inl h
      · exact Or.inr (Or.inl h)
  · intro hadv hfuel
    obtain ⟨f, rfl⟩ : ∃ f, fuel = f + 1 := ⟨fuel - 1, by omega⟩
    apply DisconnectHelper_wait_terminates env c (time w + 5) hadv f w
    have : w.ms / 1000 * 1000 ≤ w.ms := Nat.div_mul_le_self _ _
    unfold time
    omega
  · intro w0 h
    unfold cannotStop at h
    simp only [DisconnectHelper, if_neg h]

/-- With a clock that advances by the time slept, and a connection that is
disconnected after the first sleep, the loop is left after one sleep. -/
theorem DisconnectHelper_wait_bounded_witness :
    (DisconnectHelper.wait sampleEnv 0 (time sampleWorld + 5) 5001 sampleWorld).2 = true :=
  (DisconnectHelper_wait_bounded sampleEnv 0 5001 sampleWorld).2.1
    (by intro s; simp [sampleEnv]) (le_refl _)

/-- The loop of `FindPLAPConnections`, entered at index `i` with `count`
entries stored: it appends the persistent connections among the next `n`
indices for as long as there is room below `max_count`. -/
theorem FindPLAPConnections_loop_spec (env : UIEnv) (o : options_t) (max_count : Nat) :
    ∀ (n i count : Nat) (conn : Nat → Nat), count ≤ max_count →
      (FindPLAPConnections.loop env o max_count n i count conn).1
        = count + min (((List.range' i n).filter (fun j =>
            decide ((o.conn j).flags &&& env.FLAG_DAEMON_PERSISTENT ≠ 0))).length)
            (max_count - count)
      ∧ ∀ k, (FindPLAPConnections.loop env o max_count n i count conn).2 k
          = if count ≤ k ∧ k < count + min (((List.range' i n).filter (fun j =>
                decide ((o.conn j).flags &&& env.FLAG_DAEMON_PERSISTENT ≠ 0))).length)
                (max_count - count)
            then ((List.range' i n).filter (fun j =>
                decide ((o.conn j).flags &&& env.FLAG_DAEMON_PERSISTENT ≠ 0))).getD
                  (k - count) 0
            else conn k := by
  intro n
  induction n with
  | zero =>
    intro i count conn _
    refine ⟨by simp [FindPLAPConnections.loop], fun k => ?_⟩
    simp only [FindPLAPConnections.loop, List.range'_zero, List.filter_nil, List.length_nil,
      Nat.zero_min, Nat.add_zero]
    rw [if_neg (by omega)]
  | succ n ih =>
    intro i count conn hc
    rw [List.range'_succ]
    by_cases hlt : count < max_count
    · by_cases hp : (o.conn i).flags &&& env.FLAG_DAEMON_PERSISTENT = 0
      · have hf : (i :: List.range' (i + 1) n).filter (fun j =>
            decide ((o.conn j).flags &&& env.FLAG_DAEMON_PERSISTENT ≠ 0))
            = (List.range' (i + 1) n).filter (fun j =>
            decide ((o.conn j).flags &&& env.FLAG_DAEMON_PERSISTENT ≠ 0)) := by
          simp [List.filter_cons, hp]
        rw [hf]
        simp only [FindPLAPConnections.loop, if_pos hlt, if_pos hp]
        exact ih (i + 1) count conn hc
      · have hf : (i :: List.range' (i + 1) n).filter (fun j =>
            decide ((o.conn j).flags &&& env.FLAG_DAEMON_PERSISTENT ≠ 0))
            = i :: (List.range' (i + 1) n).filter (fun j =>
            decide ((o.conn j).flags &&& env.FLAG_DAEMON_PERSISTENT ≠ 0)) := by
          simp [List.filter_cons, hp]
        rw [hf]
        simp only [FindPLAPConnections.loop, if_pos hlt, if_neg hp]
        obtain ⟨h1, h2⟩ := ih (i + 1) (count + 1)
          (fun k => if k = count then i else conn k) hlt
        constructor
        · rw [h1]
          simp only [List.length_cons]
          omega
        · intro k
          rw [h2 k]
          simp only [List.length_cons]
          by_cases hk : k = count
          · subst hk
            have : ¬ (k + 1 ≤ k) := by omega
            simp only [this, false_and, if_false, if_true, le_refl, true_and, Nat.sub_self,
              List.getD_cons_zero]
            rw [if_pos (by omega)]
          · by_cases hk2 : count + 1 ≤ k
            · have e : k - count = (k - (count + 1)) + 1 := by omega
              rw [e, List.getD_cons_succ]
              have c1 : (count + 1 ≤ k ∧ k < count + 1 + min
                  ((List.range' (i + 1) n).filter (fun j =>
                    decide ((o.conn j).flags &&& env.FLAG_DAEMON_PERSISTENT ≠ 0))).length
                  (max_count - (count + 1)))
                  ↔ (count ≤ k ∧ k < count + min
                  (((List.range' (i + 1) n).filter (fun j =>
                    decide ((o.conn j).flags &&& env.FLAG_DAEMON_PERSISTENT ≠ 0))).length + 1)
                  (max_count - count)) := by
                constructor <;> intro ⟨a, b⟩ <;> constructor <;> omega
              by_cases hc1 : count ≤ k ∧ k < count + min
                  (((List.range' (i + 1) n).filter (fun j =>
                    decide ((o.conn j).flags &&& env.FLAG_DAEMON_PERSISTENT ≠ 0))).length + 1)
                  (max_count - count)
              · rw [if_pos (c1.mpr hc1), if_pos hc1]
              · rw [if_neg (fun h => hc1 (c1.mp h)), if_neg hc1, if_neg hk]
            · have a1 : ¬ (count + 1 ≤ k ∧ k < count + 1 + min
                  ((List.range' (i + 1) n).filter (fun j =>
                    decide ((o.conn j).flags &&& env.FLAG_DAEMON_PERSISTENT ≠ 0))).length
                  (max_count - (count + 1))) := fun h => hk2 h.1
              have a2 : ¬ (count ≤ k ∧ k < count + min
                  (((List.range' (i + 1) n).filter (fun j =>
                    decide ((o.conn j).flags &&& env.FLAG_DAEMON_PERSISTENT ≠ 0))).length + 1)
                  (max_count - count)) := fun h => by omega
              rw [if_neg a1, if_neg a2, if_neg hk]
    · have he : max_count - count = 0 := by omega
      simp only [FindPLAPConnections.loop, if_neg hlt, he, Nat.min_zero, Nat.add_zero]
      refine ⟨trivial, fun k => ?_⟩
      rw [if_neg (by omega)]

/-- C5 (amended). `FindPLAPConnections` returns the number of PLAP-enabled
configs capped at `max_count`, that is the smaller of `max_count` and the
number of connections among `o.conn[0 .. o.num_configs)` whose flags contain
`FLAG_DAEMON_PERSISTENT`; it sets `conn[0 .. count)` to the first `count` of
those connections in increasing index order and leaves the rest of `conn`
alone. When `max_count` is at least the number of such connections the count
is that number and `conn[0 .. count)` holds exactly those connections. -/
theorem FindPLAPConnections_capped (env : UIEnv) (o : options_t) (conn : Nat → Nat)
    (max_count : Nat) :
    (FindPLAPConnections env o conn max_count).1
      = min (plapIndices env o).length max_count
    ∧ (List.range (FindPLAPConnections env o conn max_count).1).map
        (FindPLAPConnections env o conn max_count).2
      = (plapIndices env o).take max_count
    ∧ (∀ k, (FindPLAPConnections env o conn max_count).1 ≤ k →
        (FindPLAPConnections env o conn max_count).2 k = conn k)
    ∧ ((plapIndices env o).length ≤ max_count →
        (FindPLAPConnections env o conn max_count).1 = (plapIndices env o).length
        ∧ (List.range (FindPLAPConnections env o conn max_count).1).map
            (FindPLAPConnections env o conn max_count).2
          = plapIndices env o) := by
  obtain ⟨h1, h2⟩ := FindPLAPConnections_loop_spec env o max_count o.num_configs 0 0 conn
    (Nat.zero_le _)
  rw [← List.range_eq_range'] at h1 h2
  simp only [Nat.zero_add, Nat.sub_zero, Nat.zero_le, true_and] at h1 h2
  have hcount : (FindPLAPConnections env o conn max_count).1
      = min (plapIndices env o).length max_count := h1
  have hcell : ∀ k, (FindPLAPConnections env o conn max_count).2 k
      = if k < min (plapIndices env o).length max_count
        then (plapIndices env o).getD k 0 else conn k := h2
  clear h1 h2
  have hmap : (List.range (FindPLAPConnections env o conn max_count).1).map
        (FindPLAPConnections env o conn max_count).2
      = (plapIndices env o).take max_count := by
    apply List.ext_getElem
    · simp [hcount, Nat.min_comm]
    · intro k hk1 hk2
      simp only [List.length_map, List.length_range] at hk1
      have hk3 : k < min (plapIndices env o).length max_count := by
        rw [← hcount]; exact hk1
      have hk4 : k < (plapIndices env o).length := by omega
      simp only [List.getElem_map, List.getElem_range, List.getElem_take]
      rw [hcell k, if_pos hk3, List.getD_eq_getElem _ _ hk4]
  refine ⟨hcount, hmap, ?_, ?_⟩
  · intro k hk
    rw [hcell k, if_neg]
    rw [hcount] at hk
    omega
  · intro hle
    rw [hmap, hcount]
    exact ⟨by omega, List.take_of_length_le hle⟩

/-- C5 (counterexample). With two persistent configs and `max_count = 1` the
function returns 1, not the number 2 of PLAP-enabled configs. -/
theorem FindPLAPConnections_not_the_number :
    (plapIndices sampleEnv sampleOptions).length = 2
    ∧ (FindPLAPConnections sampleEnv sampleOptions (fun _ => 0) 1).1 = 1
    ∧ (FindPLAPConnections sampleEnv sampleOptions (fun _ => 0) 1).1
        ≠ (plapIndices sampleEnv sampleOptions).length := by
  decide

/-- The first loop of `DetachAllOpenVPN`, entered at index `i`: it calls
`DetachOpenVPN` once on each of the next `n` connections that is not
disconnected, in index order, and makes no other call. -/
theorem DetachAllOpenVPN_detach_trace (env : UIEnv) :
    ∀ (n i : Nat) (w : World),
      (DetachAllOpenVPN.detach env n i w).trace
        = w.trace ++ ((List.range' i n).filter (fun j =>
            decide ((w.o.conn j).state ≠ conn_state_t.disconnected))).map Event.DetachOpenVPN := by
  intro n
  induction n with
  | zero => intro i w; simp [DetachAllOpenVPN.detach]
  | succ n ih =>
    intro i w
    rw [List.range'_succ]
    by_cases hs : (w.o.conn i).state ≠ conn_state_t.disconnected
    · simp only [DetachAllOpenVPN.detach, if_pos hs]
      rw [ih]
      have hf : (List.range' (i + 1) n).filter (fun j => decide
            ((((w.setConn i (env.DetachOpenVPN (w.o.conn i))).emit
              (Event.DetachOpenVPN i)).o.conn j).state ≠ conn_state_t.disconnected))
          = (List.range' (i + 1) n).filter (fun j =>
            decide ((w.o.conn j).state ≠ conn_state_t.disconnected)) := by
        apply List.filter_congr
        intro x hx
        rw [List.mem_range'_1] at hx
        have : x ≠ i := by omega
        simp [World.emit, World.setConn, this]
      rw [hf]
      simp [World.emit, World.setConn, List.filter_cons, hs]
    · simp only [DetachAllOpenVPN.detach, if_neg hs]
      rw [ih]
      simp [List.filter_cons, hs]

/-- The first loop changes nothing when the connections it visits are all
disconnected. -/
theorem DetachAllOpenVPN_detach_idle (env : UIEnv) :
    ∀ (n i : Nat) (w : World),
      (∀ j, i ≤ j → j < i + n → (w.o.conn j).state = conn_state_t.disconnected) →
      DetachAllOpenVPN.detach env n i w = w := by
  intro n
  induction n with
  | zero => intro i w _; simp [DetachAllOpenVPN.detach]
  | succ n ih =>
    intro i w h
    have hs : ¬ ((w.o.conn i).state ≠ conn_state_t.disconnected) := by
      simp [h i (le_refl _) (by omega)]
    simp only [DetachAllOpenVPN.detach, if_neg hs]
    exact ih (i + 1) w (fun j h1 h2 => h j (by omega) (by omega))

/-- The first loop leaves `o.num_configs` alone. -/
theorem DetachAllOpenVPN_detach_num_configs (env : UIEnv) :
    ∀ (n i : Nat) (w : World),
      (DetachAllOpenVPN.detach env n i w).o.num_configs = w.o.num_configs := by
  intro n
  induction n with
  | zero => intro i w; simp [DetachAllOpenVPN.detach]
  | succ n ih =>
    intro i w
    by_cases hs : (w.o.conn i).state ≠ conn_state_t.disconnected
    · simp only [DetachAllOpenVPN.detach, if_pos hs]
      rw [ih]
      simp [World.emit, World.setConn]
    · simp only [DetachAllOpenVPN.detach, if_neg hs]
      rw [ih]

/-- All connections are disconnected exactly when each one below
`o.num_configs` is. -/
theorem allDisconnected_iff (o : options_t) :
    allDisconnected o ↔ ∀ j, j < o.num_configs → (o.conn j).state = conn_state_t.disconnected := by
  unfold allDisconnected CountConnState
  have h := @List.filter_length_eq_length Nat
    (fun i => decide ((o.conn i).state = conn_state_t.disconnected)) (List.range o.num_configs)
  rw [List.length_range] at h
  rw [h]
  simp [List.mem_range]

/-- The calls of `k` unsuccessful polls. -/
theorem afterPolls_trace (env : UIEnv) :
    ∀ (k : Nat) (w : World), (afterPolls env k w).trace = w.trace ++ pollCalls k false := by
  intro k
  induction k with
  | zero => intro w; simp [afterPolls, pollCalls]
  | succ k ih =>
    intro w
    rw [afterPolls, ih]
    simp [failedPoll, Sleep, World.emit, pollCalls]

/-- The second loop of `DetachAllOpenVPN` run for at most `n` polls: it makes
`k` unsuccessful polls, each followed by a sleep, and stops at the first poll
that finds every connection disconnected, or after `n` polls. -/
theorem DetachAllOpenVPN_wait_spec (env : UIEnv) :
    ∀ (n : Nat) (w : World), ∃ k, k ≤ n
      ∧ (∀ j, j < k → ¬ allDisconnected (afterPolls env j w).o)
      ∧ (k < n → allDisconnected (afterPolls env k w).o)
      ∧ (DetachAllOpenVPN.wait env n w).o = (afterPolls env k w).o
      ∧ (DetachAllOpenVPN.wait env n w).trace = w.trace ++ pollCalls k (decide (k < n)) := by
  intro n
  induction n with
  | zero =>
    intro w
    exact ⟨0, le_refl _, fun j hj => absurd hj (Nat.not_lt_zero j),
      fun h => absurd h (Nat.lt_irrefl 0), rfl, by simp [DetachAllOpenVPN.wait, pollCalls]⟩
  | succ n ih =>
    intro w
    by_cases hd : allDisconnected w.o
    · refine ⟨0, Nat.zero_le _, fun j hj => absurd hj (Nat.not_lt_zero j), fun _ => hd, ?_, ?_⟩
      · have hd2 : CountConnState (w.emit
            (Event.CountConnState conn_state_t.disconnected)).o conn_state_t.disconnected
            = (w.emit (Event.CountConnState conn_state_t.disconnected)).o.num_configs := hd
        simp only [DetachAllOpenVPN.wait, if_pos hd2]
        rfl
      · have hd2 : CountConnState (w.emit
            (Event.CountConnState conn_state_t.disconnected)).o conn_state_t.disconnected
            = (w.emit (Event.CountConnState conn_state_t.disconnected)).o.num_configs := hd
        simp only [DetachAllOpenVPN.wait, if_pos hd2]
        simp [World.emit, pollCalls]
    · obtain ⟨k, hk, h1, h2, h3, h4⟩ := ih (failedPoll env w)
      have hd2 : ¬ (CountConnState (w.emit
          (Event.CountConnState conn_state_t.disconnected)).o conn_state_t.disconnected
          = (w.emit (Event.CountConnState conn_state_t.disconnected)).o.num_configs) := hd
      refine ⟨k + 1, by omega, ?_, ?_, ?_, ?_⟩
      · intro j hj
        cases j with
        | zero => exact hd
        | succ j => exact h1 j (by omega)
      · intro hlt
        exact h2 (by omega)
      · simp only [DetachAllOpenVPN.wait, if_neg hd2]
        exact h3
      · simp only [DetachAllOpenVPN.wait, if_neg hd2]
        have h5 : (DetachAllOpenVPN.wait env n (failedPoll env w)).trace
            = (failedPoll env w).trace ++ pollCalls k (decide (k < n)) := h4
        have h6 : DetachAllOpenVPN.wait env n
            (Sleep env 100 (w.emit (Event.CountConnState conn_state_t.disconnected)))
            = DetachAllOpenVPN.wait env n (failedPoll env w) := rfl
        rw [h6, h5]
        have h7 : decide (k + 1 < n + 1) = decide (k < n) := by
          simp
        rw [h7]
        simp [failedPoll, Sleep, World.emit, pollCalls]

/-- The calls of `WaitOnThread` are thread calls. -/
theorem WaitOnThread_trace (env : UIEnv) (c : Nat) (timeout : DWORD) (w : World) :
    ∃ evs, (WaitOnThread env c timeout w).trace = w.trace ++ evs
      ∧ ∀ e, e ∈ evs → Event.isThreadCall e = true := by
  unfold WaitOnThread
  by_cases h0 : env.OpenThread (w.o.conn c).threadId = 0
  · exact ⟨[], by simp [h0], by simp⟩
  · simp only [if_neg h0]
    by_cases hx : (decide (env.WaitForSingleObject (env.OpenThread (w.o.conn c).threadId)
          timeout = WAIT_OBJECT_0) &&
        (match env.GetExitCodeThread (env.OpenThread (w.o.conn c).threadId) with
          | some exit_code => decide (exit_code ≠ STILL_ACTIVE)
          | none => false)) = true
    · simp only [hx, if_true]
      by_cases hi : env.OpenThread (w.o.conn c).threadId ≠ env.INVALID_HANDLE_VALUE
      · exact ⟨[Event.CloseHandle (env.OpenThread (w.o.conn c).threadId)],
          by simp [hi, World.emit], by simp [Event.isThreadCall]⟩
      · exact ⟨[], by simp [hi], by simp⟩
    · simp only [hx]
      by_cases hi : env.OpenThread (w.o.conn c).threadId ≠ env.INVALID_HANDLE_VALUE
      · exact ⟨[Event.TerminateThread (env.OpenThread (w.o.conn c).threadId) 1,
            Event.CloseHandle (env.OpenThread (w.o.conn c).threadId)],
          by simp [hi, World.emit, World.setConn], by simp [Event.isThreadCall]⟩
      · exact ⟨[Event.TerminateThread (env.OpenThread (w.o.conn c).threadId) 1],
          by simp [hi, World.emit, World.setConn], by simp [Event.isThreadCall]⟩

/-- The calls of the third loop of `DetachAllOpenVPN` are thread calls. -/
theorem DetachAllOpenVPN_kill_trace (env : UIEnv) :
    ∀ (n i : Nat) (w : World), ∃ evs,
      (DetachAllOpenVPN.kill env n i w).trace = w.trace ++ evs
      ∧ ∀ e, e ∈ evs → Event.isThreadCall e = true := by
  intro n
  induction n with
  | zero => intro i w; exact ⟨[], by simp [DetachAllOpenVPN.kill], by simp⟩
  | succ n ih =>
    intro i w
    by_cases hs : (w.o.conn i).hwndStatus ≠ 0
    · obtain ⟨e1, h1, h2⟩ := WaitOnThread_trace env i 0 w
      obtain ⟨e2, h3, h4⟩ := ih (i + 1) (WaitOnThread env i 0 w)
      refine ⟨e1 ++ e2, ?_, ?_⟩
      · simp only [DetachAllOpenVPN.kill, if_pos hs]
        rw [h3, h1, List.append_assoc]
      · intro e he
        rcases List.mem_append.mp he with h | h
        · exact h2 e h
        · exact h4 e h
    · obtain ⟨e2, h3, h4⟩ := ih (i + 1) w
      exact ⟨e2, by simp only [DetachAllOpenVPN.kill, if_neg hs]; exact h3, h4⟩

/-- Among the calls of `k` unsuccessful polls there are `k` sleeps. -/
theorem pollCalls_sleeps (k : Nat) (stopped : Bool) :
    (pollCalls k stopped).countP Event.isSleep = k := by
  induction k with
  | zero => cases stopped <;> simp [pollCalls, Event.isSleep]
  | succ k ih => simp [pollCalls, Event.isSleep, List.countP_cons, ih]

/-- Among the calls of the wait loop there is one count for each unsuccessful
poll and one for the successful poll. -/
theorem pollCalls_counts (k : Nat) (stopped : Bool) :
    (pollCalls k stopped).countP Event.isCountConnState = k + (if stopped then 1 else 0) := by
  induction k with
  | zero => cases stopped <;> simp [pollCalls, Event.isCountConnState]
  | succ k ih =>
    simp only [pollCalls, List.countP_cons, ih, Event.isCountConnState]
    simp
    omega

/-- C9. `DetachAllOpenVPN` calls `DetachOpenVPN` exactly once on each
connection that is not disconnected, in index order, and on no disconnected
one. Its wait loop then makes `k ≤ 10` unsuccessful polls, each followed by a
sleep of 100 ms, and stops at the first poll at which every connection below
`o.num_configs` is disconnected, or after ten polls: there are `k` sleeps and
at most ten polls. Nothing is detached and nobody sleeps when every connection
is disconnected at the start, in particular when `o.num_configs` is 0. The
calls that follow are those of `WaitOnThread`. -/
theorem DetachAllOpenVPN_bounded_wait (env : UIEnv) (w : World) :
    ∃ k threadCalls, k ≤ 10
      ∧ (DetachAllOpenVPN env w).trace
          = w.trace
            ++ ((List.range w.o.num_configs).filter (fun i =>
                decide ((w.o.conn i).state ≠ conn_state_t.disconnected))).map
                  Event.DetachOpenVPN
            ++ pollCalls k (decide (k < 10)) ++ threadCalls
      ∧ (∀ e, e ∈ threadCalls → Event.isThreadCall e = true)
      ∧ (∀ j, j < k → ¬ allDisconnected
          (afterPolls env j (DetachAllOpenVPN.detach env w.o.num_configs 0 w)).o)
      ∧ (k < 10 → allDisconnected
          (afterPolls env k (DetachAllOpenVPN.detach env w.o.num_configs 0 w)).o)
      ∧ (DetachAllOpenVPN env w).trace.countP Event.isSleep
          = w.trace.countP Event.isSleep + k
      ∧ (DetachAllOpenVPN env w).trace.countP Event.isCountConnState
          = w.trace.countP Event.isCountConnState + min (k + 1) 10
      ∧ (allDisconnected w.o → k = 0
          ∧ (List.range w.o.num_configs).filter (fun i =>
              decide ((w.o.conn i).state ≠ conn_state_t.disconnected)) = [])
      ∧ (w.o.num_configs = 0 → k = 0) := by
  have hdet := DetachAllOpenVPN_detach_trace env w.o.num_configs 0 w
  rw [← List.range_eq_range'] at hdet
  obtain ⟨k, hk, h1, h2, -, h4⟩ :=
    DetachAllOpenVPN_wait_spec env 10 (DetachAllOpenVPN.detach env w.o.num_configs 0 w)
  obtain ⟨evs, h5, h6⟩ := DetachAllOpenVPN_kill_trace env
    (DetachAllOpenVPN.wait env 10
      (DetachAllOpenVPN.detach env w.o.num_configs 0 w)).o.num_configs 0
    (DetachAllOpenVPN.wait env 10 (DetachAllOpenVPN.detach env w.o.num_configs 0 w))
  have htrace : (DetachAllOpenVPN env w).trace
      = w.trace
        ++ ((List.range w.o.num_configs).filter (fun i =>
            decide ((w.o.conn i).state ≠ conn_state_t.disconnected))).map Event.DetachOpenVPN
        ++ pollCalls k (decide (k < 10)) ++ evs := by
    unfold DetachAllOpenVPN
    simp only []
    rw [h5, h4, hdet]
  have hidle : allDisconnected w.o → k = 0 := by
    intro ha
    have hw : DetachAllOpenVPN.detach env w.o.num_configs 0 w = w :=
      DetachAllOpenVPN_detach_idle env w.o.num_configs 0 w
        (fun j _ hj => (allDisconnected_iff w.o).mp ha j (by omega))
    by_contra hne
    have := h1 0 (Nat.pos_of_ne_zero hne)
    rw [hw] at this
    exact this ha
  have hD1 : (((List.range w.o.num_configs).filter (fun i =>
      decide ((w.o.conn i).state ≠ conn_state_t.disconnected))).map
        Event.DetachOpenVPN).countP Event.isSleep = 0 := by
    rw [List.countP_eq_zero]
    intro a ha
    obtain ⟨i, -, rfl⟩ := List.mem_map.mp ha
    simp [Event.isSleep]
  have hD2 : (((List.range w.o.num_configs).filter (fun i =>
      decide ((w.o.conn i).state ≠ conn_state_t.disconnected))).map
        Event.DetachOpenVPN).countP Event.isCountConnState = 0 := by
    rw [List.countP_eq_zero]
    intro a ha
    obtain ⟨i, -, rfl⟩ := List.mem_map.mp ha
    simp [Event.isCountConnState]
  have hT1 : evs.countP Event.isSleep = 0 := by
    rw [List.countP_eq_zero]
    intro a ha
    have := h6 a ha
    cases a <;> simp_all [Event.isThreadCall, Event.isSleep]
  have hT2 : evs.countP Event.isCountConnState = 0 := by
    rw [List.countP_eq_zero]
    intro a ha
    have := h6 a ha
    cases a <;> simp_all [Event.isThreadCall, Event.isCountConnState]
  refine ⟨k, evs, hk, htrace, h6, h1, h2, ?_, ?_, ?_, ?_⟩
  · rw [htrace]
    simp only [List.countP_append, hD1, hT1, pollCalls_sleeps]
    omega
  · rw [htrace]
    simp only [List.countP_append, hD2, hT2, pollCalls_counts]
    by_cases hlt : k < 10
    · simp only [hlt, decide_True, if_true]
      omega
    · have : k = 10 := by omega
      subst this
      simp
  · intro ha
    refine ⟨hidle ha, ?_⟩
    rw [List.filter_eq_nil_iff]
    intro a hmem
    have := (allDisconnected_iff w.o).mp ha a (List.mem_range.mp hmem)
    simp [this]
  · intro h0
    apply hidle
    rw [allDisconnected_iff]
    intro j hj
    omega

/-- Two connected connections that become disconnected during the first
sleep: both are detached, and the loop sleeps once and polls twice. -/
theorem DetachAllOpenVPN_sample_run :
    (DetachAllOpenVPN sampleEnv sampleWorld).trace
      = [Event.DetachOpenVPN 0, Event.DetachOpenVPN 1,
          Event.CountConnState conn_state_t.disconnected, Event.Sleep 100,
          Event.CountConnState conn_state_t.disconnected,
          Event.CloseHandle 107, Event.CloseHandle 107] := by
  decide


end OpenVPNGui
